import Mathlib

/-
Formal model of the keep-watching server's watch-status engine.

The model is a shallow embedding of the TypeScript sources: database tables
become lists of rows, SQL statements become list traversals with MySQL's
matched-rows semantics for `affectedRows` (the mysql2 driver connects with
the FOUND_ROWS flag, so an UPDATE reports the number of rows matched by the
WHERE clause), and the request-scoped cache becomes an explicit association
list keyed by strings.  Components whose implementation is not part of the
repository snapshot (the CacheService, Show model and Account model) are
modelled from the specification and are marked as such in their doc
comments.
-/

/-- Watch status enumeration: `NOT_WATCHED`, `WATCHING`, `WATCHED`
(spec section 3; the string values used throughout the TypeScript code). -/
inductive WatchStatus where
  | notWatched
  | watching
  | watched
deriving DecidableEq, Repr

/-- A row of the `shows` table (only the columns the claims depend on:
the internal id and the provider-assigned TMDB id). -/
structure ShowRow where
  id : Nat
  tmdbId : Nat
deriving DecidableEq, Repr

/-- A row of the `seasons` table: internal id, owning show, TMDB id and
ordinal season number. -/
structure SeasonRow where
  id : Nat
  showId : Nat
  tmdbId : Nat
  seasonNumber : Nat
deriving DecidableEq, Repr

/-- A row of the `episodes` table: internal id, denormalized show id,
owning season, TMDB id and ordinal episode number. -/
structure EpisodeRow where
  id : Nat
  showId : Nat
  seasonId : Nat
  tmdbId : Nat
  episodeNumber : Nat
deriving DecidableEq, Repr

/-- A row of the `show_watch_status` table: the per-(profile, show)
watch-status association. -/
structure ShowWS where
  profileId : Nat
  showId : Nat
  status : WatchStatus
deriving DecidableEq, Repr

/-- A row of the `season_watch_status` table: the per-(profile, season)
watch-status association. -/
structure SeasonWS where
  profileId : Nat
  seasonId : Nat
  status : WatchStatus
deriving DecidableEq, Repr

/-- A row of the `episode_watch_status` table: the per-(profile, episode)
watch-status association. -/
structure EpisodeWS where
  profileId : Nat
  episodeId : Nat
  status : WatchStatus
deriving DecidableEq, Repr

/-- A row of the profile-to-account ownership mapping (profiles belong to
accounts; used by the completion notification). -/
structure ProfileAccount where
  profileId : Nat
  accountId : Nat
deriving DecidableEq, Repr

/-- The database state: one list per table plus the AUTO_INCREMENT counters
used to assign `insertId`s. -/
structure DB where
  shows : List ShowRow := []
  seasons : List SeasonRow := []
  episodes : List EpisodeRow := []
  showWS : List ShowWS := []
  seasonWS : List SeasonWS := []
  episodeWS : List EpisodeWS := []
  profileAccounts : List ProfileAccount := []
  nextShowId : Nat := 1
  nextSeasonId : Nat := 1
  nextEpisodeId : Nat := 1
deriving DecidableEq, Repr

/-- The result set of the join
`FROM episodes e JOIN episode_watch_status ews ON e.id = ews.episode_id
WHERE e.season_id = ? AND ews.profile_id = ?`
(the statuses of this profile's episode associations within the season),
as read by `Season.updateWatchStatusByEpisode`. -/
def episodeStatusesForSeason (db : DB) (profileId seasonId : Nat) : List WatchStatus :=
  (db.episodes.filter (fun e => e.seasonId == seasonId)).flatMap
    (fun e => (db.episodeWS.filter (fun w => w.episodeId == e.id && w.profileId == profileId)).map (·.status))

/-- The list of distinct values of a list of statuses, as counted by SQL
`COUNT(DISTINCT ews.status)`. -/
def distinctStatuses : List WatchStatus → List WatchStatus
  | [] => []
  | s :: rest =>
    let r := distinctStatuses rest
    if s ∈ r then r else s :: r

/-- The SQL aggregate
`CASE WHEN COUNT(DISTINCT ews.status) = 1 THEN MAX(ews.status) ELSE 'WATCHING' END`
from `Season.updateWatchStatusByEpisode`: when exactly one distinct status is
present that status is returned (the maximum of a one-element set is that
element), otherwise — including the empty case, where the count is zero —
the result is `WATCHING`. -/
def aggSeasonStatus (sts : List WatchStatus) : WatchStatus :=
  match distinctStatuses sts with
  | [s] => s
  | _ => WatchStatus.watching

/-- The statement `UPDATE season_watch_status SET status = ? WHERE
profile_id = ? AND season_id = ?`: every matching row has its status
replaced; the second component is `affectedRows` (rows matched). -/
def setSeasonRows (db : DB) (profileId seasonId : Nat) (v : WatchStatus) : DB × Nat :=
  ({ db with
      seasonWS := db.seasonWS.map
        (fun r => if r.profileId == profileId && r.seasonId == seasonId then { r with status := v } else r) },
   db.seasonWS.countP (fun r => r.profileId == profileId && r.seasonId == seasonId))

/-- `Season.getWatchStatus` (episode.ts): reads the season association's
status for the profile; `none` when no row exists (the query's first row
otherwise). -/
def getSeasonWatchStatus (db : DB) (profileId seasonId : Nat) : Option WatchStatus :=
  (db.seasonWS.find? (fun r => r.profileId == profileId && r.seasonId == seasonId)).map (·.status)

/-- `Season.updateWatchStatusByEpisode` (episode.ts): runs the aggregate
query over the profile's episode associations in the season — an aggregate
query without GROUP BY always yields exactly one row, so the result set is
the singleton of the aggregate value — then, unless the result set is empty
(the guard `if (!statusResult.length) return`), writes the first row's
`season_status` to the season association. -/
def updateWatchStatusByEpisode (db : DB) (profileId seasonId : Nat) : DB :=
  let statusResult : List WatchStatus := [aggSeasonStatus (episodeStatusesForSeason db profileId seasonId)]
  match statusResult with
  | [] => db
  | seasonStatus :: _ => (setSeasonRows db profileId seasonId seasonStatus).1

/-- The `DatabaseError` thrown by the models on infrastructure failure. -/
inductive DbErr where
  | databaseError
deriving DecidableEq, Repr

/-- The statement `UPDATE episode_watch_status SET status = ? WHERE
profile_id = ? AND episode_id IN (SELECT id from episodes where
season_id = ?)` from `Season.updateAllWatchStatuses`; the second component
is `affectedRows` (rows matched). -/
def setEpisodeRowsForSeason (db : DB) (profileId seasonId : Nat) (v : WatchStatus) : DB × Nat :=
  let pred := fun (w : EpisodeWS) =>
    w.profileId == profileId && db.episodes.any (fun e => e.id == w.episodeId && e.seasonId == seasonId)
  ({ db with
      episodeWS := db.episodeWS.map (fun w => if pred w then { w with status := v } else w) },
   db.episodeWS.countP pred)

/-- `Season.updateAllWatchStatuses` (episode.ts): inside a transaction,
updates the season association, returning `false` before commit when zero
season rows were affected; then updates every episode association of the
season (this step may fail with a `DatabaseError`, modelled by the
`episodeStepFails` flag: the catch block rolls the transaction back, so the
committed state is the input state, and rethrows); on success commits and
returns whether at least one episode row was affected.  The second
component of the result is the committed database state. -/
def updateAllWatchStatuses (db : DB) (profileId seasonId : Nat) (v : WatchStatus)
    (episodeStepFails : Bool) : Except DbErr Bool × DB :=
  let r1 := setSeasonRows db profileId seasonId v
  if r1.2 == 0 then (Except.ok false, db)
  else if episodeStepFails then (Except.error DbErr.databaseError, db)
  else
    let r2 := setEpisodeRowsForSeason r1.1 profileId seasonId v
    (Except.ok (decide (0 < r2.2)), r2.1)

/-- `Season.updateWatchStatus` (episode.ts): the non-cascading season-level
update; returns `true` exactly when at least one row was affected. -/
def season_updateWatchStatus (db : DB) (profileId seasonId : Nat) (v : WatchStatus) : DB × Bool :=
  let r := setSeasonRows db profileId seasonId v
  (r.1, decide (0 < r.2))

/-- The statement `UPDATE show_watch_status SET status = ? WHERE
profile_id = ? AND show_id = ?`; the second component is `affectedRows`. -/
def setShowRows (db : DB) (profileId showId : Nat) (v : WatchStatus) : DB × Nat :=
  ({ db with
      showWS := db.showWS.map
        (fun r => if r.profileId == profileId && r.showId == showId then { r with status := v } else r) },
   db.showWS.countP (fun r => r.profileId == profileId && r.showId == showId))

/-- Season-association update restricted to the seasons of one show
(the season-level step of the show cascade). -/
def setSeasonRowsOfShow (db : DB) (profileId showId : Nat) (v : WatchStatus) : DB × Nat :=
  let pred := fun (w : SeasonWS) =>
    w.profileId == profileId && db.seasons.any (fun s => s.id == w.seasonId && s.showId == showId)
  ({ db with
      seasonWS := db.seasonWS.map (fun w => if pred w then { w with status := v } else w) },
   db.seasonWS.countP pred)

/-- Episode-association update restricted to the episodes of one show
(the episode-level step of the show cascade, via the denormalized
`show_id` column). -/
def setEpisodeRowsOfShow (db : DB) (profileId showId : Nat) (v : WatchStatus) : DB × Nat :=
  let pred := fun (w : EpisodeWS) =>
    w.profileId == profileId && db.episodes.any (fun e => e.id == w.episodeId && e.showId == showId)
  ({ db with
      episodeWS := db.episodeWS.map (fun w => if pred w then { w with status := v } else w) },
   db.episodeWS.countP pred)

/-- Modelled from the spec: `Show.updateWatchStatus` — the Show model is not
part of the repository snapshot; per spec section 4.3, the non-recursive
path is a show-only row update that fails (returns `false`) exactly when
zero rows were affected. -/
def show_updateWatchStatus (db : DB) (profileId showId : Nat) (v : WatchStatus) : DB × Bool :=
  let r := setShowRows db profileId showId v
  (r.1, decide (0 < r.2))

/-- Modelled from the spec: `Show.updateAllWatchStatuses`, the spec's
`setShowAndDescendantsStatus` (section 4.2) — the Show model is not part of
the repository snapshot.  A single transaction updates the show-level
association, then all season-level and episode-level associations under the
show; it returns the number of episode rows affected, and returns 0 —
rolling back so that nothing is observable — when the show-level row itself
did not exist. -/
def show_updateAllWatchStatuses (db : DB) (profileId showId : Nat) (v : WatchStatus) : DB × Nat :=
  let r1 := setShowRows db profileId showId v
  if r1.2 == 0 then (db, 0)
  else
    let r2 := setSeasonRowsOfShow r1.1 profileId showId v
    let r3 := setEpisodeRowsOfShow r2.1 profileId showId v
    (r3.1, r3.2)

/-- A cache entry: key, cached value and the TTL it was stored with.  The
cached values in this model are profile show reads — lists of
(show id, watch status) pairs. -/
structure CacheEntry where
  key : String
  value : List (Nat × WatchStatus)
  ttl : Nat
deriving DecidableEq, Repr

/-- Modelled from the spec: the CacheService (spec section 4.1) is not part
of the repository snapshot.  A key-value store with TTL and pattern
invalidation.  Expiry is not modelled: no claim involves the passage of
time, so every stored entry is treated as unexpired. -/
structure Cache where
  entries : List CacheEntry
deriving DecidableEq, Repr

/-- The empty cache. -/
def emptyCache : Cache := ⟨[]⟩

/-- Whether string `long` starts with string `pre` (the string
representation of keys, compared character by character). -/
def strStartsWith (pre long : String) : Bool :=
  pre.data.isPrefixOf long.data

/-- Modelled from the spec: `invalidate(key)` removes the entry with
exactly that key. -/
def Cache.invalidate (c : Cache) (k : String) : Cache :=
  ⟨c.entries.filter (fun e => ¬(e.key == k))⟩

/-- Modelled from the spec: `invalidatePattern(prefix)` removes every entry
whose key's string representation starts with `prefix` (spec section 4.1). -/
def Cache.invalidatePattern (c : Cache) (pre : String) : Cache :=
  ⟨c.entries.filter (fun e => ¬ strStartsWith pre e.key)⟩

/-- Modelled from the spec: `getOrSet(key, producer, ttlSeconds)` returns
the cached value when an entry is present, otherwise stores and returns the
producer's value.  The producer is a pure re-read from the store, so it is
passed here already evaluated. -/
def Cache.getOrSet (c : Cache) (k : String) (producer : List (Nat × WatchStatus)) (ttl : Nat) :
    List (Nat × WatchStatus) × Cache :=
  match c.entries.find? (fun e => e.key == k) with
  | some e => (e.value, c)
  | none => (producer, ⟨c.entries ++ [⟨k, producer, ttl⟩]⟩)

/-- `CACHE_KEYS.PROFILE_SHOWS` from the ShowService. -/
def cacheKeyProfileShows (profileId : Nat) : String :=
  "profile_" ++ toString profileId ++ "_shows"

/-- `CACHE_KEYS.PROFILE_SHOW` from the ShowService. -/
def cacheKeyProfileShow (profileId showId : Nat) : String :=
  "profile_" ++ toString profileId ++ "_show_" ++ toString showId

/-- `CACHE_KEYS.PROFILE_UNWATCHED_EPISODES` from the ShowService. -/
def cacheKeyProfileUnwatchedEpisodes (profileId : Nat) : String :=
  "profile_" ++ toString profileId ++ "_unwatched_episodes"

/-- The key literal used inside `ShowService.getShowDetailsForProfile`. -/
def showDetailsCacheKey (profileId showId : Nat) : String :=
  "profile_" ++ toString profileId ++ "_show_details_" ++ toString showId

/-- Modelled from the spec: `Show.getAllShowsForProfile` — the Show model is
not part of the repository snapshot; it reads every show association of the
profile as (show id, watch status) pairs. -/
def readShowsForProfile (db : DB) (profileId : Nat) : List (Nat × WatchStatus) :=
  (db.showWS.filter (fun w => w.profileId == profileId)).map (fun w => (w.showId, w.status))

/-- Modelled from the spec: `Show.getShowDetailsForProfile` — the Show model
is not part of the repository snapshot; the detail read carries the show's
current watch status for the profile. -/
def readShowDetails (db : DB) (profileId showId : Nat) : List (Nat × WatchStatus) :=
  (db.showWS.filter (fun w => w.profileId == profileId && w.showId == showId)).map
    (fun w => (w.showId, w.status))

/-- `ShowService.getShowsForProfile`: cached read of the profile's show
list under `CACHE_KEYS.PROFILE_SHOWS`, TTL 600 seconds. -/
def getShowsForProfile (db : DB) (c : Cache) (profileId : Nat) : List (Nat × WatchStatus) × Cache :=
  Cache.getOrSet c (cacheKeyProfileShows profileId) (readShowsForProfile db profileId) 600

/-- `ShowService.getShowDetailsForProfile`: cached read of the show's
details under the key `profile_<id>_show_details_<showId>`, TTL 600
seconds. -/
def getShowDetailsForProfile (db : DB) (c : Cache) (profileId showId : Nat) :
    List (Nat × WatchStatus) × Cache :=
  Cache.getOrSet c (showDetailsCacheKey profileId showId) (readShowDetails db profileId showId) 600

/-- The `BadRequestError` thrown by the ShowService when a status update
affected no rows. -/
inductive EngineErr where
  | badRequest
deriving DecidableEq, Repr

/-- `ShowService.updateShowWatchStatus`: updates the show association
(cascading to descendants when `recursive`), throws `BadRequestError` if
the model reported failure (a zero result, which is falsy, when recursive),
and on success invalidates the `PROFILE_SHOW`, `PROFILE_SHOWS` and
`PROFILE_UNWATCHED_EPISODES` cache keys of the profile. -/
def updateShowWatchStatus (db : DB) (c : Cache) (profileId showId : Nat) (v : WatchStatus)
    (recursive : Bool) : Except EngineErr Bool × DB × Cache :=
  let step :=
    if recursive then
      let r := show_updateAllWatchStatuses db profileId showId v
      (r.1, decide (0 < r.2))
    else show_updateWatchStatus db profileId showId v
  let db1 := step.1
  if step.2 then
    let c1 := c.invalidate (cacheKeyProfileShow profileId showId)
    let c2 := c1.invalidate (cacheKeyProfileShows profileId)
    let c3 := c2.invalidate (cacheKeyProfileUnwatchedEpisodes profileId)
    (Except.ok true, db1, c3)
  else (Except.error EngineErr.badRequest, db1, c)

/-- `ShowService.invalidateProfileCache`: pattern invalidation with the
prefix `profile_<id>` — note, with no trailing delimiter. -/
def invalidateProfileCache (c : Cache) (profileId : Nat) : Cache :=
  c.invalidatePattern ("profile_" ++ toString profileId)

/-- An episode as reported by the content provider (TMDB): provider id and
ordinal number. -/
structure TMDBEpisode where
  id : Nat
  episodeNumber : Nat
deriving DecidableEq, Repr

/-- A season as reported by the content provider: provider id, ordinal
season number, and the episode list returned by `getSeasonDetails` in
provider order. -/
structure TMDBSeason where
  id : Nat
  seasonNumber : Nat
  episodes : List TMDBEpisode
deriving DecidableEq, Repr

/-- A show payload as reported by the content provider: provider id and its
season list in provider order. -/
structure TMDBShow where
  id : Nat
  seasons : List TMDBSeason
deriving DecidableEq, Repr

/-- `Season.save`: INSERT of a new season row, which is assigned the next
AUTO_INCREMENT id (returned as the second component, the `insertId`). -/
def saveSeasonRow (db : DB) (showId : Nat) (s : TMDBSeason) : DB × Nat :=
  let sid := db.nextSeasonId
  ({ db with
      seasons := db.seasons ++ [⟨sid, showId, s.id, s.seasonNumber⟩],
      nextSeasonId := sid + 1 }, sid)

/-- `Season.saveFavorite` (episode.ts): `INSERT IGNORE INTO
season_watch_status (profile_id, season_id)` — inserts the association
(status defaulting to `NOT_WATCHED`) unless one already exists for the
(profile, season) pair. -/
def saveSeasonFavorite (db : DB) (profileId sid : Nat) : DB :=
  if db.seasonWS.any (fun w => w.profileId == profileId && w.seasonId == sid) then db
  else { db with seasonWS := db.seasonWS ++ [⟨profileId, sid, WatchStatus.notWatched⟩] }

/-- `Episode.save` (episodesDb.saveEpisode): INSERT of a new episode row
with the next AUTO_INCREMENT id returned as `insertId`. -/
def saveEpisodeRow (db : DB) (showId sid : Nat) (e : TMDBEpisode) : DB × Nat :=
  let eid := db.nextEpisodeId
  ({ db with
      episodes := db.episodes ++ [⟨eid, showId, sid, e.id, e.episodeNumber⟩],
      nextEpisodeId := eid + 1 }, eid)

/-- `Episode.saveFavorite` (episodesDb.saveFavorite): `INSERT IGNORE INTO
episode_watch_status (profile_id, episode_id)` — inserts the association
(status defaulting to `NOT_WATCHED`) unless one already exists. -/
def saveEpisodeFavorite (db : DB) (profileId eid : Nat) : DB :=
  if db.episodeWS.any (fun w => w.profileId == profileId && w.episodeId == eid) then db
  else { db with episodeWS := db.episodeWS ++ [⟨profileId, eid, WatchStatus.notWatched⟩] }

/-- The inner episode loop of `ShowService.fetchSeasonsAndEpisodes`: each
provider episode is persisted, then marked favorited, in provider order. -/
def persistEpisodes (profileId showId sid : Nat) (db : DB) : List TMDBEpisode → DB
  | [] => db
  | e :: rest =>
    let r := saveEpisodeRow db showId sid e
    persistEpisodes profileId showId sid (saveEpisodeFavorite r.1 profileId r.2) rest

/-- One iteration of the season loop of `fetchSeasonsAndEpisodes`: persist
the season, mark it favorited, then persist and favorite its episodes. -/
def persistSeason (profileId showId : Nat) (db : DB) (s : TMDBSeason) : DB :=
  let r := saveSeasonRow db showId s
  let db2 := saveSeasonFavorite r.1 profileId r.2
  persistEpisodes profileId showId r.2 db2 s.episodes

/-- The season loop of `fetchSeasonsAndEpisodes` run to completion with no
failures, in provider order. -/
def persistSeasons (profileId showId : Nat) (db : DB) : List TMDBSeason → DB
  | [] => db
  | s :: rest => persistSeasons profileId showId (persistSeason profileId showId db s) rest

/-- A connected socket session: session identifier and the accountId stored
in the socket's data. -/
structure Socket where
  sessId : Nat
  accountId : Nat
deriving DecidableEq, Repr

/-- The refreshed show-with-hierarchy view (`Show.getShowForProfile` with
its seasons and episodes; the Show model is not part of the repository
snapshot, so the hierarchy part is modelled from the spec and from
`Season.getSeasonsForShow`): show id, the profile's show status and the
seasons with the ids of their episodes. -/
structure ShowView where
  showId : Nat
  status : Option WatchStatus
  seasons : List (Nat × List Nat)
deriving DecidableEq, Repr

/-- The watch-status event emitted over the socket: target session, event
name, message and the payload's show view. -/
structure SocketEvent where
  target : Nat
  name : String
  message : String
  showView : ShowView
deriving DecidableEq, Repr

/-- The profile's show association status (show-level analogue of
`Season.getWatchStatus`). -/
def getShowWatchStatus (db : DB) (profileId showId : Nat) : Option WatchStatus :=
  (db.showWS.find? (fun r => r.profileId == profileId && r.showId == showId)).map (·.status)

/-- Builds the show-with-hierarchy view read back for the completion
notification. -/
def getShowForProfileView (db : DB) (profileId showId : Nat) : ShowView :=
  ⟨showId, getShowWatchStatus db profileId showId,
    (db.seasons.filter (fun s => s.showId == showId)).map
      (fun srow => (srow.id, (db.episodes.filter (fun e => e.seasonId == srow.id)).map (·.id)))⟩

/-- Modelled from the spec: `Account.findAccountIdByProfileId` — the Account
model is not part of the repository snapshot; looks up the account owning
the profile. -/
def findAccountIdByProfileId (db : DB) (profileId : Nat) : Option Nat :=
  (db.profileAccounts.find? (fun r => r.profileId == profileId)).map (·.accountId)

/-- `ShowService.notifyShowDataLoaded`: when a socket server is initialized
(`getSocketInstance` is non-null), looks up the account owning the profile
and the refreshed show view, finds the first connected session whose
`accountId` equals that account, and emits a single `updateShowFavorite`
event to it; with no matching session (or no socket server) nothing is
emitted and nothing is queued.  The result is the list of emitted events. -/
def notifyShowDataLoaded (io : Option (List Socket)) (db : DB) (profileId showId : Nat) :
    List SocketEvent :=
  match io with
  | none => []
  | some sockets =>
    let accountId := findAccountIdByProfileId db profileId
    let loadedShow := getShowForProfileView db profileId showId
    match sockets.find? (fun sock => accountId == some sock.accountId) with
    | some userSocket =>
      [⟨userSocket.sessId, "updateShowFavorite", "Show data has been fully loaded", loadedShow⟩]
    | none => []

/-- The outcome of one background hierarchy load: the resulting database
state, whether the loop ran to completion, whether the catch block logged
an error, and the socket events emitted.  The loader never rethrows: this
function is total, mirroring the catch-log-and-stop behaviour. -/
structure LoaderResult where
  db : DB
  completed : Bool
  loggedError : Bool
  events : List SocketEvent
deriving DecidableEq, Repr

/-- The season loop of `fetchSeasonsAndEpisodes` with failure injection:
`fails n` states that the awaited provider call `getSeasonDetails` for
season number `n` throws.  A throwing step ends the loop immediately with
the rows persisted so far (there is no rollback of previous iterations and
no retry). -/
def fetchLoop (fails : Nat → Bool) (profileId showId : Nat) (db : DB) :
    List TMDBSeason → DB × Bool
  | [] => (db, true)
  | s :: rest =>
    if fails s.seasonNumber then (db, false)
    else fetchLoop fails profileId showId (persistSeason profileId showId db s) rest

/-- `ShowService.fetchSeasonsAndEpisodes`: filters the provider's seasons to
those with `season_number > 0`, processes them strictly in provider order
(the fixed 200 ms inter-season delay is not modelled: no claim involves
time), and on completion emits the completion notification; on any error
inside the loop the catch block logs and the method simply returns, so no
event is emitted and no error propagates. -/
def fetchSeasonsAndEpisodes (fails : Nat → Bool) (io : Option (List Socket)) (db : DB)
    (tmdbShow : TMDBShow) (showId profileId : Nat) : LoaderResult :=
  let validSeasons := tmdbShow.seasons.filter (fun s => 0 < s.seasonNumber)
  let r := fetchLoop fails profileId showId db validSeasons
  if r.2 then
    ⟨r.1, true, false, notifyShowDataLoaded io r.1 profileId showId⟩
  else
    ⟨r.1, false, true, []⟩

/-- Modelled from the spec: `Show.findByTMDBId` — the Show model is not part
of the repository snapshot; finds the show row with the given provider id. -/
def findByTMDBId (db : DB) (tmdbId : Nat) : Option ShowRow :=
  db.shows.find? (fun s => s.tmdbId == tmdbId)

/-- Modelled from the spec: `Show.save` — INSERT of a new show row with the
next AUTO_INCREMENT id returned as `insertId`. -/
def saveShowRow (db : DB) (tmdbId : Nat) : DB × Nat :=
  let sid := db.nextShowId
  ({ db with shows := db.shows ++ [⟨sid, tmdbId⟩], nextShowId := sid + 1 }, sid)

/-- Modelled from the spec: the show-level favorite association — unique per
(profile, show) pair (spec section 3), so the insert is skipped when the
association already exists. -/
def saveShowFavorite (db : DB) (profileId showId : Nat) : DB :=
  if db.showWS.any (fun w => w.profileId == profileId && w.showId == showId) then db
  else { db with showWS := db.showWS ++ [⟨profileId, showId, WatchStatus.notWatched⟩] }

/-- Modelled from the spec: `ShowService.favoriteExistingShow` /
`Show.saveFavorite(profileId, true)` — attaches the favorite for the show
and for every already-persisted season and episode of the show, with the
INSERT IGNORE semantics of `Season.saveFavorite` and `Episode.saveFavorite`
(episode.ts). -/
def favoriteExistingShow (db : DB) (profileId showId : Nat) : DB :=
  let db1 := saveShowFavorite db profileId showId
  let db2 := (db1.seasons.filter (fun s => s.showId == showId)).foldl
    (fun d srow => saveSeasonFavorite d profileId srow.id) db1
  (db2.episodes.filter (fun e => e.showId == showId)).foldl
    (fun d erow => saveEpisodeFavorite d profileId erow.id) db2

/-- `ShowService.addShowToFavorites` restricted to its database effect: when
a show with this TMDB id already exists the favorite is attached
synchronously (`favoriteExistingShow`); otherwise the show row is saved,
marked favorited, and the hierarchy load runs (`favoriteNewShow`).  For the
idempotence claim the background load is composed sequentially, modelling a
second call issued after the first call's load completed. -/
def addShowToFavorites (fails : Nat → Bool) (io : Option (List Socket)) (db : DB)
    (profileId : Nat) (tmdbShow : TMDBShow) : DB :=
  match findByTMDBId db tmdbShow.id with
  | some existing => favoriteExistingShow db profileId existing.id
  | none =>
    let r := saveShowRow db tmdbShow.id
    let db2 := saveShowFavorite r.1 profileId r.2
    (fetchSeasonsAndEpisodes fails io db2 tmdbShow r.2 profileId).db

/-- Scenario: profile 1 favorited season 7 (status WATCHED) but no episode
watch-status association exists for that season. -/
def dbNoEpisodeAssoc : DB := { seasonWS := [⟨1, 7, WatchStatus.watched⟩] }

/-- Scenario: profile 1 favorited season 5 (status NOT_WATCHED); no episode
of the season has a watch-status association for the profile. -/
def dbSeasonOnlyFav : DB := { seasonWS := [⟨1, 5, WatchStatus.notWatched⟩] }

/-- Scenario: profiles 1 and 2 both favorited show 5 (status NOT_WATCHED). -/
def dbShowFav : DB :=
  { shows := [⟨5, 99⟩],
    showWS := [⟨1, 5, WatchStatus.notWatched⟩, ⟨2, 5, WatchStatus.notWatched⟩],
    nextShowId := 6 }

/-- Scenario step: profile 1's show list is read, populating its cache
entry. -/
def cacheStepA : List (Nat × WatchStatus) × Cache := getShowsForProfile dbShowFav emptyCache 1

/-- Scenario step: profile 1's details for show 5 are read, populating the
details cache entry. -/
def cacheStepB : List (Nat × WatchStatus) × Cache :=
  getShowDetailsForProfile dbShowFav cacheStepA.2 1 5

/-- Scenario step: profile 2's show list is read, populating its cache
entry. -/
def cacheStepC : List (Nat × WatchStatus) × Cache := getShowsForProfile dbShowFav cacheStepB.2 2

/-- Scenario step: profile 1's status for show 5 is then successfully
updated to WATCHED through the engine. -/
def cacheStepUpd : Except EngineErr Bool × DB × Cache :=
  updateShowWatchStatus dbShowFav cacheStepC.2 1 5 WatchStatus.watched false

/-- A provider payload for show 99: a specials season (ordinal 0) with one
episode, then season 1 with two episodes and season 2 with one episode. -/
def loaderPayload : TMDBShow :=
  ⟨99, [⟨900, 0, [⟨9000, 1⟩]⟩, ⟨901, 1, [⟨9010, 1⟩, ⟨9011, 2⟩]⟩, ⟨902, 2, [⟨9020, 1⟩]⟩]⟩

/-- The failure oracle under which no provider call throws. -/
def noFails : Nat → Bool := fun _ => false

/-- The failure oracle under which the `getSeasonDetails` call for season
number 2 throws. -/
def failsSeasonTwo : Nat → Bool := fun n => n == 2

/-- Membership in `distinctStatuses` coincides with membership in the
underlying list. -/
theorem mem_distinctStatuses (x : WatchStatus) (l : List WatchStatus) :
    x ∈ distinctStatuses l ↔ x ∈ l := by
  induction l with
  | nil => simp [distinctStatuses]
  | cons s rest ih =>
    simp only [distinctStatuses, List.mem_cons]
    by_cases hs : s ∈ distinctStatuses rest
    · simp only [if_pos hs, ih]
      constructor
      · exact Or.inr
      · rintro (rfl | hx)
        · exact ih.mp hs
        · exact hx
    · simp [if_neg hs, ih]

/-- A nonempty list all of whose elements equal `S` has `[S]` as its list
of distinct statuses. -/
theorem distinctStatuses_all_eq (l : List WatchStatus) (S : WatchStatus)
    (hne : l ≠ []) (hall : ∀ x ∈ l, x = S) : distinctStatuses l = [S] := by
  induction l with
  | nil => exact absurd rfl hne
  | cons s rest ih =>
    have hsS : s = S := hall s (List.mem_cons_self s rest)
    subst hsS
    by_cases hr : rest = []
    · subst hr
      simp [distinctStatuses]
    · have := ih hr (fun x hx => hall x (List.mem_cons_of_mem _ hx))
      simp [distinctStatuses, this]

/-- The aggregate of a nonempty all-`S` list of statuses is `S`. -/
theorem aggSeasonStatus_all_eq (l : List WatchStatus) (S : WatchStatus)
    (hne : l ≠ []) (hall : ∀ x ∈ l, x = S) : aggSeasonStatus l = S := by
  simp [aggSeasonStatus, distinctStatuses_all_eq l S hne hall]

/-- The aggregate of a list containing two distinct statuses is
`WATCHING`. -/
theorem aggSeasonStatus_mixed (l : List WatchStatus) (a b : WatchStatus)
    (ha : a ∈ l) (hb : b ∈ l) (hab : a ≠ b) : aggSeasonStatus l = WatchStatus.watching := by
  have ha' : a ∈ distinctStatuses l := (mem_distinctStatuses a l).mpr ha
  have hb' : b ∈ distinctStatuses l := (mem_distinctStatuses b l).mpr hb
  rcases hd : distinctStatuses l with _ | ⟨s, _ | ⟨t, rest⟩⟩
  · rw [hd] at ha'
    exact absurd ha' (List.not_mem_nil a)
  · rw [hd] at ha' hb'
    simp only [List.mem_singleton] at ha' hb'
    exact absurd (ha'.trans hb'.symm) hab
  · unfold aggSeasonStatus
    rw [hd]

/-- After the season-status UPDATE, the first matching association row (as
read by `Season.getWatchStatus`) carries the written value, provided a
matching row exists. -/
theorem find_set_seasonWS (l : List SeasonWS) (profileId seasonId : Nat) (v : WatchStatus)
    (hrow : ∃ r ∈ l, r.profileId = profileId ∧ r.seasonId = seasonId) :
    (l.map (fun r => if r.profileId == profileId && r.seasonId == seasonId
        then { r with status := v } else r)).find?
      (fun r => r.profileId == profileId && r.seasonId == seasonId) =
      some ⟨profileId, seasonId, v⟩ := by
  induction l with
  | nil => simp at hrow
  | cons r t ih =>
    simp only [List.map_cons]
    by_cases hr : (r.profileId == profileId && r.seasonId == seasonId) = true
    · rw [if_pos hr]
      have hh : r.profileId = profileId ∧ r.seasonId = seasonId := by
        simpa [Bool.and_eq_true, beq_iff_eq] using hr
      rw [List.find?_cons_of_pos _ (by simp [hh.1, hh.2])]
      obtain ⟨r1, r2, r3⟩ := r
      simp only at hh
      rw [hh.1, hh.2]
    · rw [if_neg hr]
      rw [List.find?_cons_of_neg _ (by simpa using hr)]
      apply ih
      rcases hrow with ⟨x, hx, hxp⟩
      rcases List.mem_cons.mp hx with rfl | hxt
      · exact absurd (by simp [hxp.1, hxp.2]) hr
      · exact ⟨x, hxt, hxp⟩

/-- After the season-status UPDATE, the association row read back by
`Season.getWatchStatus` carries the written value, provided a matching row
exists. -/
theorem getSeasonWatchStatus_setSeasonRows (db : DB) (profileId seasonId : Nat) (v : WatchStatus)
    (hrow : ∃ r ∈ db.seasonWS, r.profileId = profileId ∧ r.seasonId = seasonId) :
    getSeasonWatchStatus (setSeasonRows db profileId seasonId v).1 profileId seasonId = some v := by
  unfold getSeasonWatchStatus setSeasonRows
  rw [find_set_seasonWS db.seasonWS profileId seasonId v hrow]
  rfl

/-- `Season.updateWatchStatusByEpisode` always writes the aggregate value:
the aggregate result set is never empty, so the guard never fires, and the
stored season status becomes the aggregate of the episode statuses. -/
theorem getSeasonWatchStatus_updateByEpisode (db : DB) (profileId seasonId : Nat)
    (hrow : ∃ r ∈ db.seasonWS, r.profileId = profileId ∧ r.seasonId = seasonId) :
    getSeasonWatchStatus (updateWatchStatusByEpisode db profileId seasonId) profileId seasonId =
      some (aggSeasonStatus (episodeStatusesForSeason db profileId seasonId)) := by
  unfold updateWatchStatusByEpisode
  exact getSeasonWatchStatus_setSeasonRows db profileId seasonId _ hrow

/-- C1.  For every profile and season with at least one episode watch-status
association, `Season.updateWatchStatusByEpisode` sets the stored season
status to `S` when every episode association equals `S`, and to `WATCHING`
when at least two distinct statuses are present. -/
theorem updateWatchStatusByEpisode_aggregates (db : DB) (profileId seasonId : Nat)
    (S : WatchStatus)
    (hrow : ∃ r ∈ db.seasonWS, r.profileId = profileId ∧ r.seasonId = seasonId) :
    ((episodeStatusesForSeason db profileId seasonId ≠ []) →
      (∀ x ∈ episodeStatusesForSeason db profileId seasonId, x = S) →
      getSeasonWatchStatus (updateWatchStatusByEpisode db profileId seasonId) profileId seasonId =
        some S)
    ∧ ((∃ a ∈ episodeStatusesForSeason db profileId seasonId,
          ∃ b ∈ episodeStatusesForSeason db profileId seasonId, a ≠ b) →
      getSeasonWatchStatus (updateWatchStatusByEpisode db profileId seasonId) profileId seasonId =
        some WatchStatus.watching) := by
  constructor
  · intro hne hall
    rw [getSeasonWatchStatus_updateByEpisode db profileId seasonId hrow,
      aggSeasonStatus_all_eq _ S hne hall]
  · rintro ⟨a, ha, b, hb, hab⟩
    rw [getSeasonWatchStatus_updateByEpisode db profileId seasonId hrow,
      aggSeasonStatus_mixed _ a b ha hb hab]

/-- Witness for C1: two episodes of season 7 both WATCHED give season status
WATCHED; a WATCHED/NOT_WATCHED mix gives WATCHING. -/
theorem updateWatchStatusByEpisode_aggregates_witness :
    (getSeasonWatchStatus (updateWatchStatusByEpisode
      { episodes := [⟨10, 1, 7, 100, 1⟩, ⟨11, 1, 7, 101, 2⟩],
        episodeWS := [⟨1, 10, WatchStatus.watched⟩, ⟨1, 11, WatchStatus.watched⟩],
        seasonWS := [⟨1, 7, WatchStatus.notWatched⟩] } 1 7) 1 7 = some WatchStatus.watched)
    ∧ (getSeasonWatchStatus (updateWatchStatusByEpisode
      { episodes := [⟨10, 1, 7, 100, 1⟩, ⟨11, 1, 7, 101, 2⟩],
        episodeWS := [⟨1, 10, WatchStatus.watched⟩, ⟨1, 11, WatchStatus.notWatched⟩],
        seasonWS := [⟨1, 7, WatchStatus.watched⟩] } 1 7) 1 7 = some WatchStatus.watching) := by
  constructor
  · exact (updateWatchStatusByEpisode_aggregates _ 1 7 WatchStatus.watched
      ⟨⟨1, 7, WatchStatus.notWatched⟩, by decide, by decide, by decide⟩).1
      (by decide) (by decide)
  · exact (updateWatchStatusByEpisode_aggregates _ 1 7 WatchStatus.watched
      ⟨⟨1, 7, WatchStatus.watched⟩, by decide, by decide, by decide⟩).2
      ⟨WatchStatus.watched, by decide, WatchStatus.notWatched, by decide, by decide⟩

/-- C2 (code bug).  With zero episode watch-status associations the method's
own documentation says "nothing is updated", but the aggregate query still
returns one row (`COUNT(DISTINCT) = 0`, so the CASE yields `WATCHING`), the
length guard never fires, and the season stored as WATCHED is overwritten
to WATCHING. -/
theorem updateWatchStatusByEpisode_zero_assoc_overwrites :
    episodeStatusesForSeason dbNoEpisodeAssoc 1 7 = []
    ∧ getSeasonWatchStatus dbNoEpisodeAssoc 1 7 = some WatchStatus.watched
    ∧ getSeasonWatchStatus (updateWatchStatusByEpisode dbNoEpisodeAssoc 1 7) 1 7 =
        some WatchStatus.watching := by
  decide

/-- C3.  If the episode-level update step of `Season.updateAllWatchStatuses`
fails after the season-level row was updated successfully, the transaction
is rolled back: the error propagates as a `DatabaseError` and the committed
database state is exactly the pre-update state (the parent row's status is
its pre-update value and no episode association row is changed). -/
theorem updateAllWatchStatuses_rollback_on_episode_failure (db : DB)
    (profileId seasonId : Nat) (v : WatchStatus)
    (hparent : 0 < (setSeasonRows db profileId seasonId v).2) :
    updateAllWatchStatuses db profileId seasonId v true =
      (Except.error DbErr.databaseError, db) := by
  have hne : (setSeasonRows db profileId seasonId v).2 ≠ 0 := by omega
  have h0 : ((setSeasonRows db profileId seasonId v).2 == 0) = false := by
    simpa using hne
  simp only [updateAllWatchStatuses, h0]
  simp

/-- Witness for C3: a failing episode step against a database with one
season association leaves that database untouched and surfaces the
error. -/
theorem updateAllWatchStatuses_rollback_on_episode_failure_witness :
    0 < (setSeasonRows dbSeasonOnlyFav 1 5 WatchStatus.watched).2
    ∧ updateAllWatchStatuses dbSeasonOnlyFav 1 5 WatchStatus.watched true =
        (Except.error DbErr.databaseError, dbSeasonOnlyFav) :=
  ⟨by decide,
   updateAllWatchStatuses_rollback_on_episode_failure dbSeasonOnlyFav 1 5 WatchStatus.watched
     (by decide)⟩

/-- C4 counterexample.  A season favorited by profile 1 (so the parent-level
association row exists and is updated — one row affected, and the committed
state shows the new status) for which zero episode-level rows were affected:
`Season.updateAllWatchStatuses` nevertheless returns `false`, so the engine
raises an error, refuting "reports success whenever the parent-level
association row exists and was updated". -/
theorem updateAllWatchStatuses_failure_despite_parent_update :
    (setSeasonRows dbSeasonOnlyFav 1 5 WatchStatus.watched).2 = 1
    ∧ (updateAllWatchStatuses dbSeasonOnlyFav 1 5 WatchStatus.watched false).1 = Except.ok false
    ∧ getSeasonWatchStatus (updateAllWatchStatuses dbSeasonOnlyFav 1 5 WatchStatus.watched false).2
        1 5 = some WatchStatus.watched :=
  ⟨rfl, rfl, rfl⟩

/-- C4 (amended).  The engine raises an error exactly when zero rows were
affected at the parent level for the non-cascading paths — the show-level
engine call and `Season.updateWatchStatus` — while the cascading
season-level variant reports success exactly when the season row was
updated AND at least one episode-level association row was affected. -/
theorem engine_error_iff_zero_rows (db : DB) (c : Cache) (profileId showId seasonId : Nat)
    (v : WatchStatus) :
    ((updateShowWatchStatus db c profileId showId v false).1 = Except.error EngineErr.badRequest ↔
      db.showWS.countP (fun r => r.profileId == profileId && r.showId == showId) = 0)
    ∧ ((season_updateWatchStatus db profileId seasonId v).2 = true ↔
      0 < db.seasonWS.countP (fun r => r.profileId == profileId && r.seasonId == seasonId))
    ∧ ((updateAllWatchStatuses db profileId seasonId v false).1 = Except.ok true ↔
      (0 < db.seasonWS.countP (fun r => r.profileId == profileId && r.seasonId == seasonId)
        ∧ 0 < db.episodeWS.countP (fun w => w.profileId == profileId &&
            db.episodes.any (fun e => e.id == w.episodeId && e.seasonId == seasonId)))) := by
  refine ⟨?_, ?_, ?_⟩
  · by_cases h : db.showWS.countP (fun r => r.profileId == profileId && r.showId == showId) = 0
    · simp [updateShowWatchStatus, show_updateWatchStatus, setShowRows, h]
    · have hp : 0 < db.showWS.countP (fun r => r.profileId == profileId && r.showId == showId) :=
        Nat.pos_of_ne_zero h
      simp [updateShowWatchStatus, show_updateWatchStatus, setShowRows, hp, h]
  · simp [season_updateWatchStatus, setSeasonRows]
  · by_cases h : db.seasonWS.countP (fun r => r.profileId == profileId && r.seasonId == seasonId) = 0
    · simp [updateAllWatchStatuses, setSeasonRows, h]
    · have hp : 0 < db.seasonWS.countP
          (fun r => r.profileId == profileId && r.seasonId == seasonId) :=
        Nat.pos_of_ne_zero h
      simp [updateAllWatchStatuses, setSeasonRows, setEpisodeRowsForSeason, hp, h]

/-- C5 (code bug).  After a successful `updateShowWatchStatus`, the
profile's show-list cache entry is invalidated (a subsequent
`getShowsForProfile` returns the new status) and the unrelated profile 2's
cached entry is untouched — but `getShowDetailsForProfile` still returns
the pre-update status: the engine invalidates the key
`profile_1_show_5` (`CACHE_KEYS.PROFILE_SHOW`) while the details read
caches under the different literal `profile_1_show_details_5`, so the
details entry survives the update. -/
theorem updateShowWatchStatus_stale_showDetails_cache :
    cacheStepUpd.1 = Except.ok true
    ∧ readShowDetails cacheStepUpd.2.1 1 5 = [(5, WatchStatus.watched)]
    ∧ (getShowDetailsForProfile cacheStepUpd.2.1 cacheStepUpd.2.2 1 5).1 =
        [(5, WatchStatus.notWatched)]
    ∧ (getShowsForProfile cacheStepUpd.2.1 cacheStepUpd.2.2 1).1 = [(5, WatchStatus.watched)]
    ∧ cacheStepUpd.2.2.entries.any (fun e => e.key == cacheKeyProfileShows 1) = false
    ∧ cacheStepUpd.2.2.entries.any (fun e => e.key == cacheKeyProfileShows 2) = true :=
  ⟨rfl, rfl, rfl, rfl, rfl, rfl⟩

/-- C10.  `invalidateProfileCache` invalidates by the string prefix
`profile_<id>` with no trailing delimiter, so whenever one profile id's
decimal representation is a string prefix of another's, invalidating the
shorter id's namespace also removes every cache entry of the longer-id
profile: no surviving entry's key starts with the longer profile's
prefix. -/
theorem invalidateProfileCache_prefix_collision (c : Cache) (p q : Nat)
    (hpq : (toString p).data.isPrefixOf (toString q).data = true) :
    ∀ e ∈ (invalidateProfileCache c p).entries,
      strStartsWith ("profile_" ++ toString q) e.key = false := by
  intro e he
  simp only [invalidateProfileCache, Cache.invalidatePattern, List.mem_filter,
    decide_eq_true_eq] at he
  by_contra hq
  rw [Bool.not_eq_false] at hq
  apply he.2
  unfold strStartsWith at hq ⊢
  rw [List.isPrefixOf_iff_prefix] at hq ⊢
  rw [List.isPrefixOf_iff_prefix] at hpq
  refine List.IsPrefix.trans ?_ hq
  rw [String.data_append, String.data_append]
  exact (List.prefix_append_right_inj _).mpr hpq

/-- Witness for C10: invalidating profile 1's namespace removes profile
12's show-list entry — afterwards no entry keyed with prefix `profile_12`
survives, and indeed the cache is empty. -/
theorem invalidateProfileCache_prefix_collision_witness :
    ((toString 1).data.isPrefixOf (toString 12).data = true)
    ∧ (∀ e ∈ (invalidateProfileCache ⟨[⟨cacheKeyProfileShows 12,
          [(5, WatchStatus.notWatched)], 600⟩]⟩ 1).entries,
        strStartsWith ("profile_" ++ toString 12) e.key = false)
    ∧ (invalidateProfileCache ⟨[⟨cacheKeyProfileShows 12,
          [(5, WatchStatus.notWatched)], 600⟩]⟩ 1).entries = [] :=
  ⟨by decide,
   invalidateProfileCache_prefix_collision _ 1 12 (by decide),
   rfl⟩

/-- C9.  On completion of a hierarchy load: when some connected session's
accountId equals the account owning the initiating profile, exactly one
`updateShowFavorite` event — carrying the message and the refreshed
show-with-hierarchy view — is delivered (to the first such session); when
no session matches, or no socket server is initialized, nothing is emitted
and, the result being the complete list of deliveries, nothing is queued
for later (at-most-once). -/
theorem notifyShowDataLoaded_at_most_once (db : DB) (profileId showId aid : Nat)
    (sockets : List Socket)
    (hacc : findAccountIdByProfileId db profileId = some aid) :
    ((∃ sock ∈ sockets, sock.accountId = aid) →
      ∃ sock ∈ sockets, sock.accountId = aid ∧
        notifyShowDataLoaded (some sockets) db profileId showId =
          [⟨sock.sessId, "updateShowFavorite", "Show data has been fully loaded",
            getShowForProfileView db profileId showId⟩])
    ∧ ((∀ sock ∈ sockets, sock.accountId ≠ aid) →
      notifyShowDataLoaded (some sockets) db profileId showId = [])
    ∧ notifyShowDataLoaded none db profileId showId = [] := by
  refine ⟨?_, ?_, rfl⟩
  · rintro ⟨sock, hmem, hsock⟩
    simp only [notifyShowDataLoaded, hacc]
    rcases hfind : sockets.find? (fun s => (some aid == some s.accountId)) with _ | fsock
    · rw [List.find?_eq_none] at hfind
      exact absurd (by simp [hsock]) (hfind sock hmem)
    · have hf1 : fsock ∈ sockets := List.mem_of_find?_eq_some hfind
      have hf2 := List.find?_some hfind
      simp only [beq_iff_eq, Option.some.injEq] at hf2
      rw [hfind]
      exact ⟨fsock, hf1, hf2.symm, rfl⟩
  · intro hnone
    simp only [notifyShowDataLoaded, hacc]
    rw [List.find?_eq_none.mpr (fun s hs => by simp; exact fun h => hnone s hs h.symm)]

/-- Witness for C9: account 42 owns profile 1 and has session 77 connected
(session 78 belongs to account 43); the matching-session, no-matching
(empty socket list would also do, here a concrete one) and no-server cases
are instantiated. -/
theorem notifyShowDataLoaded_at_most_once_witness :
    ((∃ sock ∈ [(⟨77, 42⟩ : Socket), ⟨78, 43⟩], sock.accountId = 42) →
      ∃ sock ∈ [(⟨77, 42⟩ : Socket), ⟨78, 43⟩], sock.accountId = 42 ∧
        notifyShowDataLoaded (some [⟨77, 42⟩, ⟨78, 43⟩])
            { profileAccounts := [⟨1, 42⟩] } 1 5 =
          [⟨sock.sessId, "updateShowFavorite", "Show data has been fully loaded",
            getShowForProfileView { profileAccounts := [⟨1, 42⟩] } 1 5⟩])
    ∧ ((∀ sock ∈ [(⟨77, 42⟩ : Socket), ⟨78, 43⟩], sock.accountId ≠ 42) →
      notifyShowDataLoaded (some [⟨77, 42⟩, ⟨78, 43⟩]) { profileAccounts := [⟨1, 42⟩] } 1 5 = [])
    ∧ notifyShowDataLoaded none { profileAccounts := [⟨1, 42⟩] } 1 5 = [] :=
  notifyShowDataLoaded_at_most_once { profileAccounts := [⟨1, 42⟩] } 1 5 42
    [⟨77, 42⟩, ⟨78, 43⟩] rfl

/-- `saveSeasonFavorite` touches only the `season_watch_status` table. -/
theorem saveSeasonFavorite_parts (db : DB) (profileId sid : Nat) :
    (saveSeasonFavorite db profileId sid).seasons = db.seasons
    ∧ (saveSeasonFavorite db profileId sid).episodes = db.episodes
    ∧ (saveSeasonFavorite db profileId sid).episodeWS = db.episodeWS
    ∧ (saveSeasonFavorite db profileId sid).nextSeasonId = db.nextSeasonId
    ∧ (saveSeasonFavorite db profileId sid).nextEpisodeId = db.nextEpisodeId := by
  unfold saveSeasonFavorite
  split <;> exact ⟨rfl, rfl, rfl, rfl, rfl⟩

/-- `saveSeasonFavorite` preserves existing season associations. -/
theorem saveSeasonFavorite_seasonWS_mono (db : DB) (profileId sid : Nat) (w : SeasonWS)
    (hw : w ∈ db.seasonWS) : w ∈ (saveSeasonFavorite db profileId sid).seasonWS := by
  unfold saveSeasonFavorite
  split
  · exact hw
  · exact List.mem_append_left _ hw

/-- After `saveSeasonFavorite` the (profile, season) association exists
(INSERT IGNORE: either it already did, or it was inserted). -/
theorem saveSeasonFavorite_mem (db : DB) (profileId sid : Nat) :
    ∃ w ∈ (saveSeasonFavorite db profileId sid).seasonWS,
      w.profileId = profileId ∧ w.seasonId = sid := by
  unfold saveSeasonFavorite
  split
  · next h =>
    rw [List.any_eq_true] at h
    obtain ⟨w, hw, hp⟩ := h
    simp only [Bool.and_eq_true, beq_iff_eq] at hp
    exact ⟨w, hw, hp⟩
  · exact ⟨⟨profileId, sid, WatchStatus.notWatched⟩,
      List.mem_append_right _ (List.mem_singleton.mpr rfl), rfl, rfl⟩

/-- `saveEpisodeFavorite` touches only the `episode_watch_status` table. -/
theorem saveEpisodeFavorite_parts (db : DB) (profileId eid : Nat) :
    (saveEpisodeFavorite db profileId eid).seasons = db.seasons
    ∧ (saveEpisodeFavorite db profileId eid).episodes = db.episodes
    ∧ (saveEpisodeFavorite db profileId eid).seasonWS = db.seasonWS
    ∧ (saveEpisodeFavorite db profileId eid).nextSeasonId = db.nextSeasonId
    ∧ (saveEpisodeFavorite db profileId eid).nextEpisodeId = db.nextEpisodeId := by
  unfold saveEpisodeFavorite
  split <;> exact ⟨rfl, rfl, rfl, rfl, rfl⟩

/-- `saveEpisodeFavorite` preserves existing episode associations. -/
theorem saveEpisodeFavorite_episodeWS_mono (db : DB) (profileId eid : Nat) (w : EpisodeWS)
    (hw : w ∈ db.episodeWS) : w ∈ (saveEpisodeFavorite db profileId eid).episodeWS := by
  unfold saveEpisodeFavorite
  split
  · exact hw
  · exact List.mem_append_left _ hw

/-- After `saveEpisodeFavorite` the (profile, episode) association exists. -/
theorem saveEpisodeFavorite_mem (db : DB) (profileId eid : Nat) :
    ∃ w ∈ (saveEpisodeFavorite db profileId eid).episodeWS,
      w.profileId = profileId ∧ w.episodeId = eid := by
  unfold saveEpisodeFavorite
  split
  · next h =>
    rw [List.any_eq_true] at h
    obtain ⟨w, hw, hp⟩ := h
    simp only [Bool.and_eq_true, beq_iff_eq] at hp
    exact ⟨w, hw, hp⟩
  · exact ⟨⟨profileId, eid, WatchStatus.notWatched⟩,
      List.mem_append_right _ (List.mem_singleton.mpr rfl), rfl, rfl⟩

/-- The episode loop touches neither the seasons table nor the season
associations (nor the season counter). -/
theorem persistEpisodes_parts (profileId showId sid : Nat) (es : List TMDBEpisode) (db : DB) :
    (persistEpisodes profileId showId sid db es).seasons = db.seasons
    ∧ (persistEpisodes profileId showId sid db es).seasonWS = db.seasonWS
    ∧ (persistEpisodes profileId showId sid db es).nextSeasonId = db.nextSeasonId := by
  induction es generalizing db with
  | nil => exact ⟨rfl, rfl, rfl⟩
  | cons e rest ih =>
    simp only [persistEpisodes]
    obtain ⟨i1, i2, i3⟩ := ih (saveEpisodeFavorite (saveEpisodeRow db showId sid e).1 profileId
      (saveEpisodeRow db showId sid e).2)
    obtain ⟨f1, _, f3, f4, _⟩ := saveEpisodeFavorite_parts
      (saveEpisodeRow db showId sid e).1 profileId (saveEpisodeRow db showId sid e).2
    exact ⟨i1.trans f1, i2.trans f3, i3.trans f4⟩

/-- The episode loop appends exactly the provider's episodes, in provider
order (projected to TMDB ids). -/
theorem persistEpisodes_map (profileId showId sid : Nat) (es : List TMDBEpisode) (db : DB) :
    (persistEpisodes profileId showId sid db es).episodes.map (·.tmdbId) =
      db.episodes.map (·.tmdbId) ++ es.map (·.id) := by
  induction es generalizing db with
  | nil => simp [persistEpisodes]
  | cons e rest ih =>
    simp only [persistEpisodes]
    rw [ih]
    obtain ⟨_, f2, _, _, _⟩ := saveEpisodeFavorite_parts
      (saveEpisodeRow db showId sid e).1 profileId (saveEpisodeRow db showId sid e).2
    rw [f2]
    simp [saveEpisodeRow]

/-- The episode loop preserves existing episode rows. -/
theorem persistEpisodes_episodes_mono (profileId showId sid : Nat) (es : List TMDBEpisode)
    (db : DB) (row : EpisodeRow) (hrow : row ∈ db.episodes) :
    row ∈ (persistEpisodes profileId showId sid db es).episodes := by
  induction es generalizing db with
  | nil => exact hrow
  | cons e rest ih =>
    simp only [persistEpisodes]
    apply ih
    obtain ⟨_, f2, _, _, _⟩ := saveEpisodeFavorite_parts
      (saveEpisodeRow db showId sid e).1 profileId (saveEpisodeRow db showId sid e).2
    rw [f2]
    exact List.mem_append_left _ hrow

/-- The episode loop preserves existing episode associations. -/
theorem persistEpisodes_episodeWS_mono (profileId showId sid : Nat) (es : List TMDBEpisode)
    (db : DB) (w : EpisodeWS) (hw : w ∈ db.episodeWS) :
    w ∈ (persistEpisodes profileId showId sid db es).episodeWS := by
  induction es generalizing db with
  | nil => exact hw
  | cons e rest ih =>
    simp only [persistEpisodes]
    exact ih _ (saveEpisodeFavorite_episodeWS_mono _ profileId _ w hw)

/-- Every episode row present after the episode loop was either already
present or is marked favorited for the initiating profile. -/
theorem persistEpisodes_favorited (profileId showId sid : Nat) (es : List TMDBEpisode)
    (db : DB) (row : EpisodeRow)
    (hrow : row ∈ (persistEpisodes profileId showId sid db es).episodes) :
    row ∈ db.episodes ∨ ∃ w ∈ (persistEpisodes profileId showId sid db es).episodeWS,
      w.profileId = profileId ∧ w.episodeId = row.id := by
  induction es generalizing db with
  | nil => exact Or.inl hrow
  | cons e rest ih =>
    simp only [persistEpisodes] at hrow ⊢
    rcases ih _ hrow with hmem | hfav
    · obtain ⟨_, f2, _, _, _⟩ := saveEpisodeFavorite_parts
        (saveEpisodeRow db showId sid e).1 profileId (saveEpisodeRow db showId sid e).2
      rw [f2] at hmem
      rcases List.mem_append.mp hmem with hl | hr
      · exact Or.inl hl
      · right
        have hnew : row = ⟨db.nextEpisodeId, showId, sid, e.id, e.episodeNumber⟩ := by
          simpa [saveEpisodeRow] using hr
        obtain ⟨w, hw, hwp⟩ := saveEpisodeFavorite_mem
          (saveEpisodeRow db showId sid e).1 profileId (saveEpisodeRow db showId sid e).2
        refine ⟨w, persistEpisodes_episodeWS_mono profileId showId sid rest _ w hw, hwp.1, ?_⟩
        rw [hwp.2, hnew]
        rfl
    · exact Or.inr hfav

/-- One season iteration appends exactly one season row carrying the
provider season's TMDB id and ordinal number. -/
theorem persistSeason_seasons_pairs (profileId showId : Nat) (db : DB) (s : TMDBSeason) :
    (persistSeason profileId showId db s).seasons.map (fun q => (q.tmdbId, q.seasonNumber)) =
      db.seasons.map (fun q => (q.tmdbId, q.seasonNumber)) ++ [(s.id, s.seasonNumber)] := by
  unfold persistSeason
  rw [(persistEpisodes_parts profileId showId _ s.episodes _).1,
    (saveSeasonFavorite_parts _ profileId _).1]
  simp [saveSeasonRow]

/-- One season iteration appends exactly the provider's episodes of that
season, in provider order (projected to TMDB ids). -/
theorem persistSeason_episodes_map (profileId showId : Nat) (db : DB) (s : TMDBSeason) :
    (persistSeason profileId showId db s).episodes.map (·.tmdbId) =
      db.episodes.map (·.tmdbId) ++ s.episodes.map (·.id) := by
  unfold persistSeason
  rw [persistEpisodes_map, (saveSeasonFavorite_parts _ profileId _).2.1]
  rfl

/-- One season iteration preserves existing season associations. -/
theorem persistSeason_seasonWS_mono (profileId showId : Nat) (db : DB) (s : TMDBSeason)
    (w : SeasonWS) (hw : w ∈ db.seasonWS) :
    w ∈ (persistSeason profileId showId db s).seasonWS := by
  unfold persistSeason
  rw [(persistEpisodes_parts profileId showId _ s.episodes _).2.1]
  exact saveSeasonFavorite_seasonWS_mono _ profileId _ w hw

/-- One season iteration preserves existing episode associations. -/
theorem persistSeason_episodeWS_mono (profileId showId : Nat) (db : DB) (s : TMDBSeason)
    (w : EpisodeWS) (hw : w ∈ db.episodeWS) :
    w ∈ (persistSeason profileId showId db s).episodeWS := by
  unfold persistSeason
  apply persistEpisodes_episodeWS_mono
  rw [(saveSeasonFavorite_parts _ profileId _).2.2.1]
  exact hw

/-- One season iteration preserves existing episode rows. -/
theorem persistSeason_episodes_mono (profileId showId : Nat) (db : DB) (s : TMDBSeason)
    (row : EpisodeRow) (hrow : row ∈ db.episodes) :
    row ∈ (persistSeason profileId showId db s).episodes := by
  unfold persistSeason
  apply persistEpisodes_episodes_mono
  rw [(saveSeasonFavorite_parts _ profileId _).2.1]
  exact hrow

/-- Every season row present after one season iteration was either already
present or is marked favorited for the initiating profile. -/
theorem persistSeason_seasons_favorited (profileId showId : Nat) (db : DB) (s : TMDBSeason)
    (row : SeasonRow) (hrow : row ∈ (persistSeason profileId showId db s).seasons) :
    row ∈ db.seasons ∨ ∃ w ∈ (persistSeason profileId showId db s).seasonWS,
      w.profileId = profileId ∧ w.seasonId = row.id := by
  have hseq : (persistSeason profileId showId db s).seasons =
      db.seasons ++ [⟨db.nextSeasonId, showId, s.id, s.seasonNumber⟩] := by
    unfold persistSeason
    rw [(persistEpisodes_parts profileId showId _ s.episodes _).1,
      (saveSeasonFavorite_parts _ profileId _).1]
    rfl
  rw [hseq] at hrow
  rcases List.mem_append.mp hrow with hl | hr
  · exact Or.inl hl
  · right
    have hnew : row = ⟨db.nextSeasonId, showId, s.id, s.seasonNumber⟩ :=
      List.mem_singleton.mp hr
    obtain ⟨w, hw, hwp⟩ := saveSeasonFavorite_mem (saveSeasonRow db showId s).1 profileId
      (saveSeasonRow db showId s).2
    have hwmem : w ∈ (persistSeason profileId showId db s).seasonWS := by
      unfold persistSeason
      rw [(persistEpisodes_parts profileId showId _ s.episodes _).2.1]
      exact hw
    refine ⟨w, hwmem, hwp.1, ?_⟩
    rw [hwp.2, hnew]
    rfl

/-- Every episode row present after one season iteration was either already
present or is marked favorited for the initiating profile. -/
theorem persistSeason_episodes_favorited (profileId showId : Nat) (db : DB) (s : TMDBSeason)
    (row : EpisodeRow) (hrow : row ∈ (persistSeason profileId showId db s).episodes) :
    row ∈ db.episodes ∨ ∃ w ∈ (persistSeason profileId showId db s).episodeWS,
      w.profileId = profileId ∧ w.episodeId = row.id := by
  unfold persistSeason at hrow ⊢
  rcases persistEpisodes_favorited profileId showId _ s.episodes _ row hrow with hl | hr
  · rw [(saveSeasonFavorite_parts _ profileId _).2.1] at hl
    exact Or.inl hl
  · exact Or.inr hr

/-- The completed season loop appends exactly the processed seasons'
(TMDB id, ordinal) pairs, in provider order. -/
theorem persistSeasons_seasons_pairs (profileId showId : Nat) (l : List TMDBSeason) (db : DB) :
    (persistSeasons profileId showId db l).seasons.map (fun q => (q.tmdbId, q.seasonNumber)) =
      db.seasons.map (fun q => (q.tmdbId, q.seasonNumber)) ++
        l.map (fun s => (s.id, s.seasonNumber)) := by
  induction l generalizing db with
  | nil => simp [persistSeasons]
  | cons s rest ih =>
    simp only [persistSeasons]
    rw [ih, persistSeason_seasons_pairs]
    simp

/-- The completed season loop appends exactly the processed seasons'
episodes, grouped by season and in provider order within each season. -/
theorem persistSeasons_episodes_map (profileId showId : Nat) (l : List TMDBSeason) (db : DB) :
    (persistSeasons profileId showId db l).episodes.map (·.tmdbId) =
      db.episodes.map (·.tmdbId) ++ l.flatMap (fun s => s.episodes.map (·.id)) := by
  induction l generalizing db with
  | nil => simp [persistSeasons]
  | cons s rest ih =>
    simp only [persistSeasons]
    rw [ih, persistSeason_episodes_map]
    simp

/-- The season loop preserves existing season associations. -/
theorem persistSeasons_seasonWS_mono (profileId showId : Nat) (l : List TMDBSeason) (db : DB)
    (w : SeasonWS) (hw : w ∈ db.seasonWS) :
    w ∈ (persistSeasons profileId showId db l).seasonWS := by
  induction l generalizing db with
  | nil => exact hw
  | cons s rest ih =>
    exact ih _ (persistSeason_seasonWS_mono profileId showId db s w hw)

/-- The season loop preserves existing episode associations. -/
theorem persistSeasons_episodeWS_mono (profileId showId : Nat) (l : List TMDBSeason) (db : DB)
    (w : EpisodeWS) (hw : w ∈ db.episodeWS) :
    w ∈ (persistSeasons profileId showId db l).episodeWS := by
  induction l generalizing db with
  | nil => exact hw
  | cons s rest ih =>
    exact ih _ (persistSeason_episodeWS_mono profileId showId db s w hw)

/-- Every season row present after the completed loop was either already
present or is marked favorited for the initiating profile. -/
theorem persistSeasons_seasons_favorited (profileId showId : Nat) (l : List TMDBSeason)
    (db : DB) (row : SeasonRow)
    (hrow : row ∈ (persistSeasons profileId showId db l).seasons) :
    row ∈ db.seasons ∨ ∃ w ∈ (persistSeasons profileId showId db l).seasonWS,
      w.profileId = profileId ∧ w.seasonId = row.id := by
  induction l generalizing db with
  | nil => exact Or.inl hrow
  | cons s rest ih =>
    simp only [persistSeasons] at hrow ⊢
    rcases ih _ hrow with hmem | hfav
    · rcases persistSeason_seasons_favorited profileId showId db s row hmem with hl | ⟨w, hw, hwp⟩
      · exact Or.inl hl
      · exact Or.inr ⟨w, persistSeasons_seasonWS_mono profileId showId rest _ w hw, hwp⟩
    · exact Or.inr hfav

/-- Every episode row present after the completed loop was either already
present or is marked favorited for the initiating profile. -/
theorem persistSeasons_episodes_favorited (profileId showId : Nat) (l : List TMDBSeason)
    (db : DB) (row : EpisodeRow)
    (hrow : row ∈ (persistSeasons profileId showId db l).episodes) :
    row ∈ db.episodes ∨ ∃ w ∈ (persistSeasons profileId showId db l).episodeWS,
      w.profileId = profileId ∧ w.episodeId = row.id := by
  induction l generalizing db with
  | nil => exact Or.inl hrow
  | cons s rest ih =>
    simp only [persistSeasons] at hrow ⊢
    rcases ih _ hrow with hmem | hfav
    · rcases persistSeason_episodes_favorited profileId showId db s row hmem with hl | ⟨w, hw, hwp⟩
      · exact Or.inl hl
      · exact Or.inr ⟨w, persistSeasons_episodeWS_mono profileId showId rest _ w hw, hwp⟩
    · exact Or.inr hfav

/-- With no failing provider call the season loop runs to completion and
computes `persistSeasons`. -/
theorem fetchLoop_no_fail (fails : Nat → Bool) (profileId showId : Nat) (l : List TMDBSeason)
    (db : DB) (hfail : ∀ s ∈ l, fails s.seasonNumber = false) :
    fetchLoop fails profileId showId db l = (persistSeasons profileId showId db l, true) := by
  induction l generalizing db with
  | nil => rfl
  | cons s rest ih =>
    simp only [fetchLoop, hfail s (List.mem_cons_self s rest), persistSeasons]
    exact ih _ (fun x hx => hfail x (List.mem_cons_of_mem s hx))

/-- C7.  A hierarchy load in which no step fails runs to completion and:
seasons with ordinal number zero (or below) are never persisted — the
appended season rows are exactly the provider's seasons with
`season_number > 0`, in provider order; each valid season's episodes are
appended in provider-returned order, grouped by season; and every newly
persisted season and episode row carries a watch-status association for
the initiating profile. -/
theorem fetchSeasonsAndEpisodes_success (fails : Nat → Bool) (io : Option (List Socket))
    (db : DB) (tmdbShow : TMDBShow) (showId profileId : Nat) (r : LoaderResult)
    (hfail : ∀ s ∈ tmdbShow.seasons, fails s.seasonNumber = false)
    (hr : r = fetchSeasonsAndEpisodes fails io db tmdbShow showId profileId) :
    r.completed = true
    ∧ r.loggedError = false
    ∧ r.db.seasons.map (fun q => (q.tmdbId, q.seasonNumber)) =
        db.seasons.map (fun q => (q.tmdbId, q.seasonNumber)) ++
          (tmdbShow.seasons.filter (fun s => 0 < s.seasonNumber)).map
            (fun s => (s.id, s.seasonNumber))
    ∧ r.db.episodes.map (·.tmdbId) =
        db.episodes.map (·.tmdbId) ++
          (tmdbShow.seasons.filter (fun s => 0 < s.seasonNumber)).flatMap
            (fun s => s.episodes.map (·.id))
    ∧ (∀ row ∈ r.db.seasons, row ∈ db.seasons ∨
        ∃ w ∈ r.db.seasonWS, w.profileId = profileId ∧ w.seasonId = row.id)
    ∧ (∀ row ∈ r.db.episodes, row ∈ db.episodes ∨
        ∃ w ∈ r.db.episodeWS, w.profileId = profileId ∧ w.episodeId = row.id) := by
  have hvf : ∀ s ∈ tmdbShow.seasons.filter (fun s => 0 < s.seasonNumber),
      fails s.seasonNumber = false := fun s hs => hfail s (List.mem_of_mem_filter hs)
  have hfetch : fetchSeasonsAndEpisodes fails io db tmdbShow showId profileId =
      ⟨persistSeasons profileId showId db
          (tmdbShow.seasons.filter (fun s => 0 < s.seasonNumber)),
        true, false,
        notifyShowDataLoaded io (persistSeasons profileId showId db
          (tmdbShow.seasons.filter (fun s => 0 < s.seasonNumber))) profileId showId⟩ := by
    simp only [fetchSeasonsAndEpisodes]
    rw [fetchLoop_no_fail fails profileId showId _ db hvf]
    rfl
  subst hr
  rw [hfetch]
  exact ⟨rfl, rfl,
    persistSeasons_seasons_pairs profileId showId _ db,
    persistSeasons_episodes_map profileId showId _ db,
    fun row hrow => persistSeasons_seasons_favorited profileId showId _ db row hrow,
    fun row hrow => persistSeasons_episodes_favorited profileId showId _ db row hrow⟩

/-- Witness for C7: loading the three-season payload (ordinals 0, 1, 2)
with no failures persists exactly seasons 1 and 2 with their episodes in
order, all favorited for profile 1. -/
theorem fetchSeasonsAndEpisodes_success_witness :
    (fetchSeasonsAndEpisodes noFails none {} loaderPayload 5 1).completed = true
    ∧ (fetchSeasonsAndEpisodes noFails none {} loaderPayload 5 1).loggedError = false
    ∧ (fetchSeasonsAndEpisodes noFails none {} loaderPayload 5 1).db.seasons.map
        (fun q => (q.tmdbId, q.seasonNumber)) =
      (({} : DB)).seasons.map (fun q => (q.tmdbId, q.seasonNumber)) ++
        (loaderPayload.seasons.filter (fun s => 0 < s.seasonNumber)).map
          (fun s => (s.id, s.seasonNumber))
    ∧ (fetchSeasonsAndEpisodes noFails none {} loaderPayload 5 1).db.episodes.map (·.tmdbId) =
      (({} : DB)).episodes.map (·.tmdbId) ++
        (loaderPayload.seasons.filter (fun s => 0 < s.seasonNumber)).flatMap
          (fun s => s.episodes.map (·.id))
    ∧ (∀ row ∈ (fetchSeasonsAndEpisodes noFails none {} loaderPayload 5 1).db.seasons,
        row ∈ (({} : DB)).seasons ∨
        ∃ w ∈ (fetchSeasonsAndEpisodes noFails none {} loaderPayload 5 1).db.seasonWS,
          w.profileId = 1 ∧ w.seasonId = row.id)
    ∧ (∀ row ∈ (fetchSeasonsAndEpisodes noFails none {} loaderPayload 5 1).db.episodes,
        row ∈ (({} : DB)).episodes ∨
        ∃ w ∈ (fetchSeasonsAndEpisodes noFails none {} loaderPayload 5 1).db.episodeWS,
          w.profileId = 1 ∧ w.episodeId = row.id) :=
  fetchSeasonsAndEpisodes_success noFails none {} loaderPayload 5 1
    (fetchSeasonsAndEpisodes noFails none {} loaderPayload 5 1) (by decide) rfl

/-- A failing provider call at position `i` of the season list (all earlier
seasons having succeeded) ends the loop with exactly the rows persisted by
the earlier iterations. -/
theorem fetchLoop_fail_at (fails : Nat → Bool) (profileId showId : Nat) (l : List TMDBSeason)
    (db : DB) (i : Nat) (hi : i < l.length)
    (hbefore : ∀ s ∈ l.take i, fails s.seasonNumber = false)
    (hfi : fails (l.get ⟨i, hi⟩).seasonNumber = true) :
    fetchLoop fails profileId showId db l =
      (persistSeasons profileId showId db (l.take i), false) := by
  induction l generalizing db i with
  | nil => exact absurd hi (by simp)
  | cons s rest ih =>
    cases i with
    | zero =>
      simp only [List.get] at hfi
      simp [fetchLoop, hfi, persistSeasons]
    | succ j =>
      have hs : fails s.seasonNumber = false :=
        hbefore s (by rw [List.take_succ_cons]; exact List.mem_cons_self s _)
      simp only [fetchLoop, hs, List.take_succ_cons, persistSeasons, Bool.false_eq_true,
        if_false]
      exact ih _ j (Nat.lt_of_succ_lt_succ hi)
        (fun x hx => hbefore x (by rw [List.take_succ_cons]; exact List.mem_cons_of_mem s hx))
        hfi

/-- C8.  If a step inside the hierarchy-load loop throws (the provider call
at position `i` of the valid-season list, every earlier iteration having
succeeded), the loader stops there: the method still returns normally (the
model is a total function — no error propagates to any caller), the catch
block logs the error, the resulting database holds exactly the rows
persisted by the iterations before the failing step (no partial rollback),
later seasons are not processed (no retry), and no completion notification
is emitted. -/
theorem fetchSeasonsAndEpisodes_error_stops (fails : Nat → Bool) (io : Option (List Socket))
    (db : DB) (tmdbShow : TMDBShow) (showId profileId i : Nat) (r : LoaderResult)
    (hi : i < (tmdbShow.seasons.filter (fun s => 0 < s.seasonNumber)).length)
    (hbefore : ∀ s ∈ (tmdbShow.seasons.filter (fun s => 0 < s.seasonNumber)).take i,
      fails s.seasonNumber = false)
    (hfi : fails (((tmdbShow.seasons.filter (fun s => 0 < s.seasonNumber)).get
      ⟨i, hi⟩).seasonNumber) = true)
    (hr : r = fetchSeasonsAndEpisodes fails io db tmdbShow showId profileId) :
    r.db = persistSeasons profileId showId db
        ((tmdbShow.seasons.filter (fun s => 0 < s.seasonNumber)).take i)
    ∧ r.completed = false
    ∧ r.loggedError = true
    ∧ r.events = [] := by
  have hfetch : fetchSeasonsAndEpisodes fails io db tmdbShow showId profileId =
      ⟨persistSeasons profileId showId db
          ((tmdbShow.seasons.filter (fun s => 0 < s.seasonNumber)).take i),
        false, true, []⟩ := by
    simp only [fetchSeasonsAndEpisodes]
    rw [fetchLoop_fail_at fails profileId showId _ db i hi hbefore hfi]
    rfl
  subst hr
  rw [hfetch]
  exact ⟨rfl, rfl, rfl, rfl⟩

/-- Witness for C8: loading the payload with a provider failure at season
number 2 (position 1 of the valid seasons) keeps season 1 and its episodes
persisted, stops, logs, and emits nothing. -/
theorem fetchSeasonsAndEpisodes_error_stops_witness :
    (fetchSeasonsAndEpisodes failsSeasonTwo none {} loaderPayload 5 1).db =
        persistSeasons 1 5 {}
          ((loaderPayload.seasons.filter (fun s => 0 < s.seasonNumber)).take 1)
    ∧ (fetchSeasonsAndEpisodes failsSeasonTwo none {} loaderPayload 5 1).completed = false
    ∧ (fetchSeasonsAndEpisodes failsSeasonTwo none {} loaderPayload 5 1).loggedError = true
    ∧ (fetchSeasonsAndEpisodes failsSeasonTwo none {} loaderPayload 5 1).events = [] :=
  fetchSeasonsAndEpisodes_error_stops failsSeasonTwo none {} loaderPayload 5 1 1
    (fetchSeasonsAndEpisodes failsSeasonTwo none {} loaderPayload 5 1)
    (by decide) (by decide) (by decide) rfl

/-- `saveSeasonFavorite` touches neither the shows table nor the show
associations. -/
theorem saveSeasonFavorite_show_parts (db : DB) (profileId sid : Nat) :
    (saveSeasonFavorite db profileId sid).shows = db.shows
    ∧ (saveSeasonFavorite db profileId sid).showWS = db.showWS := by
  unfold saveSeasonFavorite
  split <;> exact ⟨rfl, rfl⟩

/-- `saveEpisodeFavorite` touches neither the shows table nor the show
associations nor the season associations. -/
theorem saveEpisodeFavorite_show_parts (db : DB) (profileId eid : Nat) :
    (saveEpisodeFavorite db profileId eid).shows = db.shows
    ∧ (saveEpisodeFavorite db profileId eid).showWS = db.showWS
    ∧ (saveEpisodeFavorite db profileId eid).seasonWS = db.seasonWS := by
  unfold saveEpisodeFavorite
  split <;> exact ⟨rfl, rfl, rfl⟩

/-- The episode loop touches neither the shows table nor the show
associations. -/
theorem persistEpisodes_show_parts (profileId showId sid : Nat) (es : List TMDBEpisode)
    (db : DB) :
    (persistEpisodes profileId showId sid db es).shows = db.shows
    ∧ (persistEpisodes profileId showId sid db es).showWS = db.showWS := by
  induction es generalizing db with
  | nil => exact ⟨rfl, rfl⟩
  | cons e rest ih =>
    simp only [persistEpisodes]
    obtain ⟨i1, i2⟩ := ih (saveEpisodeFavorite (saveEpisodeRow db showId sid e).1 profileId
      (saveEpisodeRow db showId sid e).2)
    obtain ⟨f1, f2, _⟩ := saveEpisodeFavorite_show_parts
      (saveEpisodeRow db showId sid e).1 profileId (saveEpisodeRow db showId sid e).2
    exact ⟨i1.trans f1, i2.trans f2⟩

/-- One season iteration touches neither the shows table nor the show
associations. -/
theorem persistSeason_show_parts (profileId showId : Nat) (db : DB) (s : TMDBSeason) :
    (persistSeason profileId showId db s).shows = db.shows
    ∧ (persistSeason profileId showId db s).showWS = db.showWS := by
  unfold persistSeason
  obtain ⟨p1, p2⟩ := persistEpisodes_show_parts profileId showId
    (saveSeasonRow db showId s).2
    s.episodes
    (saveSeasonFavorite (saveSeasonRow db showId s).1 profileId (saveSeasonRow db showId s).2)
  obtain ⟨f1, f2⟩ := saveSeasonFavorite_show_parts
    (saveSeasonRow db showId s).1 profileId (saveSeasonRow db showId s).2
  exact ⟨p1.trans f1, p2.trans f2⟩

/-- The season loop touches neither the shows table nor the show
associations. -/
theorem persistSeasons_show_parts (profileId showId : Nat) (l : List TMDBSeason) (db : DB) :
    (persistSeasons profileId showId db l).shows = db.shows
    ∧ (persistSeasons profileId showId db l).showWS = db.showWS := by
  induction l generalizing db with
  | nil => exact ⟨rfl, rfl⟩
  | cons s rest ih =>
    simp only [persistSeasons]
    obtain ⟨i1, i2⟩ := ih (persistSeason profileId showId db s)
    obtain ⟨p1, p2⟩ := persistSeason_show_parts profileId showId db s
    exact ⟨i1.trans p1, i2.trans p2⟩

/-- The season loop appends to the seasons table: existing season rows
remain. -/
theorem persistSeasons_seasons_mono (profileId showId : Nat) (l : List TMDBSeason) (db : DB)
    (row : SeasonRow) (hrow : row ∈ db.seasons) :
    row ∈ (persistSeasons profileId showId db l).seasons := by
  induction l generalizing db with
  | nil => exact hrow
  | cons s rest ih =>
    apply ih
    unfold persistSeason
    rw [(persistEpisodes_parts profileId showId _ s.episodes _).1,
      (saveSeasonFavorite_parts _ profileId _).1]
    exact List.mem_append_left _ hrow

/-- The season loop appends to the episodes table: existing episode rows
remain. -/
theorem persistSeasons_episodes_mono (profileId showId : Nat) (l : List TMDBSeason) (db : DB)
    (row : EpisodeRow) (hrow : row ∈ db.episodes) :
    row ∈ (persistSeasons profileId showId db l).episodes := by
  induction l generalizing db with
  | nil => exact hrow
  | cons s rest ih =>
    exact ih _ (persistSeason_episodes_mono profileId showId db s row hrow)

/-- `saveShowFavorite` touches only the show associations. -/
theorem saveShowFavorite_parts (db : DB) (profileId showId : Nat) :
    (saveShowFavorite db profileId showId).shows = db.shows
    ∧ (saveShowFavorite db profileId showId).seasons = db.seasons
    ∧ (saveShowFavorite db profileId showId).episodes = db.episodes
    ∧ (saveShowFavorite db profileId showId).seasonWS = db.seasonWS
    ∧ (saveShowFavorite db profileId showId).episodeWS = db.episodeWS
    ∧ (saveShowFavorite db profileId showId).nextShowId = db.nextShowId := by
  unfold saveShowFavorite
  split <;> exact ⟨rfl, rfl, rfl, rfl, rfl, rfl⟩

/-- After `saveShowFavorite` the (profile, show) association exists. -/
theorem saveShowFavorite_mem (db : DB) (profileId showId : Nat) :
    ∃ w ∈ (saveShowFavorite db profileId showId).showWS,
      w.profileId = profileId ∧ w.showId = showId := by
  unfold saveShowFavorite
  split
  · next h =>
    rw [List.any_eq_true] at h
    obtain ⟨w, hw, hp⟩ := h
    simp only [Bool.and_eq_true, beq_iff_eq] at hp
    exact ⟨w, hw, hp⟩
  · exact ⟨⟨profileId, showId, WatchStatus.notWatched⟩,
      List.mem_append_right _ (List.mem_singleton.mpr rfl), rfl, rfl⟩

/-- `saveShowFavorite` on an already-favorited show is the identity. -/
theorem saveShowFavorite_fix (db : DB) (profileId showId : Nat)
    (h : db.showWS.any (fun w => w.profileId == profileId && w.showId == showId) = true) :
    saveShowFavorite db profileId showId = db := by
  unfold saveShowFavorite
  rw [if_pos h]

/-- `saveSeasonFavorite` on an already-favorited season is the identity. -/
theorem saveSeasonFavorite_fix (db : DB) (profileId sid : Nat)
    (h : db.seasonWS.any (fun w => w.profileId == profileId && w.seasonId == sid) = true) :
    saveSeasonFavorite db profileId sid = db := by
  unfold saveSeasonFavorite
  rw [if_pos h]

/-- `saveEpisodeFavorite` on an already-favorited episode is the identity. -/
theorem saveEpisodeFavorite_fix (db : DB) (profileId eid : Nat)
    (h : db.episodeWS.any (fun w => w.profileId == profileId && w.episodeId == eid) = true) :
    saveEpisodeFavorite db profileId eid = db := by
  unfold saveEpisodeFavorite
  rw [if_pos h]

/-- The season-favoriting fold touches only the season associations. -/
theorem foldlSeasonFav_parts (profileId : Nat) (l : List SeasonRow) (db : DB) :
    ((l.foldl (fun d srow => saveSeasonFavorite d profileId srow.id) db).shows = db.shows)
    ∧ ((l.foldl (fun d srow => saveSeasonFavorite d profileId srow.id) db).seasons = db.seasons)
    ∧ ((l.foldl (fun d srow => saveSeasonFavorite d profileId srow.id) db).episodes =
        db.episodes)
    ∧ ((l.foldl (fun d srow => saveSeasonFavorite d profileId srow.id) db).showWS = db.showWS)
    ∧ ((l.foldl (fun d srow => saveSeasonFavorite d profileId srow.id) db).episodeWS =
        db.episodeWS) := by
  induction l generalizing db with
  | nil => exact ⟨rfl, rfl, rfl, rfl, rfl⟩
  | cons srow rest ih =>
    simp only [List.foldl_cons]
    obtain ⟨i1, i2, i3, i4, i5⟩ := ih (saveSeasonFavorite db profileId srow.id)
    obtain ⟨f2, f3, f5, _, _⟩ := saveSeasonFavorite_parts db profileId srow.id
    obtain ⟨f1, f4⟩ := saveSeasonFavorite_show_parts db profileId srow.id
    exact ⟨i1.trans f1, i2.trans f2, i3.trans f3, i4.trans f4, i5.trans f5⟩

/-- The season-favoriting fold preserves existing season associations. -/
theorem foldlSeasonFav_seasonWS_mono (profileId : Nat) (l : List SeasonRow) (db : DB)
    (w : SeasonWS) (hw : w ∈ db.seasonWS) :
    w ∈ (l.foldl (fun d srow => saveSeasonFavorite d profileId srow.id) db).seasonWS := by
  induction l generalizing db with
  | nil => exact hw
  | cons srow rest ih =>
    exact ih _ (saveSeasonFavorite_seasonWS_mono db profileId srow.id w hw)

/-- After the season-favoriting fold every listed season has an
association for the profile. -/
theorem foldlSeasonFav_ensures (profileId : Nat) (l : List SeasonRow) (db : DB)
    (srow : SeasonRow) (hmem : srow ∈ l) :
    ∃ w ∈ (l.foldl (fun d srow => saveSeasonFavorite d profileId srow.id) db).seasonWS,
      w.profileId = profileId ∧ w.seasonId = srow.id := by
  induction l generalizing db with
  | nil => exact absurd hmem (List.not_mem_nil srow)
  | cons x rest ih =>
    simp only [List.foldl_cons]
    rcases List.mem_cons.mp hmem with rfl | hrest
    · obtain ⟨w, hw, hwp⟩ := saveSeasonFavorite_mem db profileId srow.id
      exact ⟨w, foldlSeasonFav_seasonWS_mono profileId rest _ w hw, hwp⟩
    · exact ih _ hrest

/-- The season-favoriting fold over already-favorited seasons is the
identity. -/
theorem foldlSeasonFav_fix (profileId : Nat) (l : List SeasonRow) (db : DB)
    (h : ∀ srow ∈ l,
      db.seasonWS.any (fun w => w.profileId == profileId && w.seasonId == srow.id) = true) :
    l.foldl (fun d srow => saveSeasonFavorite d profileId srow.id) db = db := by
  induction l with
  | nil => rfl
  | cons x rest ih =>
    simp only [List.foldl_cons]
    rw [saveSeasonFavorite_fix db profileId x.id (h x (List.mem_cons_self x rest))]
    exact ih (fun srow hs => h srow (List.mem_cons_of_mem x hs))

/-- The episode-favoriting fold touches only the episode associations. -/
theorem foldlEpisodeFav_parts (profileId : Nat) (l : List EpisodeRow) (db : DB) :
    ((l.foldl (fun d erow => saveEpisodeFavorite d profileId erow.id) db).shows = db.shows)
    ∧ ((l.foldl (fun d erow => saveEpisodeFavorite d profileId erow.id) db).seasons =
        db.seasons)
    ∧ ((l.foldl (fun d erow => saveEpisodeFavorite d profileId erow.id) db).episodes =
        db.episodes)
    ∧ ((l.foldl (fun d erow => saveEpisodeFavorite d profileId erow.id) db).showWS = db.showWS)
    ∧ ((l.foldl (fun d erow => saveEpisodeFavorite d profileId erow.id) db).seasonWS =
        db.seasonWS) := by
  induction l generalizing db with
  | nil => exact ⟨rfl, rfl, rfl, rfl, rfl⟩
  | cons erow rest ih =>
    simp only [List.foldl_cons]
    obtain ⟨i1, i2, i3, i4, i5⟩ := ih (saveEpisodeFavorite db profileId erow.id)
    obtain ⟨f2, f3, _, _, _⟩ := saveEpisodeFavorite_parts db profileId erow.id
    obtain ⟨f1, f4, f5⟩ := saveEpisodeFavorite_show_parts db profileId erow.id
    exact ⟨i1.trans f1, i2.trans f2, i3.trans f3, i4.trans f4, i5.trans f5⟩

/-- The episode-favoriting fold preserves existing episode associations. -/
theorem foldlEpisodeFav_episodeWS_mono (profileId : Nat) (l : List EpisodeRow) (db : DB)
    (w : EpisodeWS) (hw : w ∈ db.episodeWS) :
    w ∈ (l.foldl (fun d erow => saveEpisodeFavorite d profileId erow.id) db).episodeWS := by
  induction l generalizing db with
  | nil => exact hw
  | cons erow rest ih =>
    exact ih _ (saveEpisodeFavorite_episodeWS_mono db profileId erow.id w hw)

/-- After the episode-favoriting fold every listed episode has an
association for the profile. -/
theorem foldlEpisodeFav_ensures (profileId : Nat) (l : List EpisodeRow) (db : DB)
    (erow : EpisodeRow) (hmem : erow ∈ l) :
    ∃ w ∈ (l.foldl (fun d erow => saveEpisodeFavorite d profileId erow.id) db).episodeWS,
      w.profileId = profileId ∧ w.episodeId = erow.id := by
  induction l generalizing db with
  | nil => exact absurd hmem (List.not_mem_nil erow)
  | cons x rest ih =>
    simp only [List.foldl_cons]
    rcases List.mem_cons.mp hmem with rfl | hrest
    · obtain ⟨w, hw, hwp⟩ := saveEpisodeFavorite_mem db profileId erow.id
      exact ⟨w, foldlEpisodeFav_episodeWS_mono profileId rest _ w hw, hwp⟩
    · exact ih _ hrest

/-- The episode-favoriting fold over already-favorited episodes is the
identity. -/
theorem foldlEpisodeFav_fix (profileId : Nat) (l : List EpisodeRow) (db : DB)
    (h : ∀ erow ∈ l,
      db.episodeWS.any (fun w => w.profileId == profileId && w.episodeId == erow.id) = true) :
    l.foldl (fun d erow => saveEpisodeFavorite d profileId erow.id) db = db := by
  induction l with
  | nil => rfl
  | cons x rest ih =>
    simp only [List.foldl_cons]
    rw [saveEpisodeFavorite_fix db profileId x.id (h x (List.mem_cons_self x rest))]
    exact ih (fun erow he => h erow (List.mem_cons_of_mem x he))

/-- `favoriteExistingShow` touches no hierarchy table: shows, seasons and
episodes are unchanged (only watch-status associations are written). -/
theorem favoriteExistingShow_tables (db : DB) (profileId showId : Nat) :
    (favoriteExistingShow db profileId showId).shows = db.shows
    ∧ (favoriteExistingShow db profileId showId).seasons = db.seasons
    ∧ (favoriteExistingShow db profileId showId).episodes = db.episodes := by
  unfold favoriteExistingShow
  obtain ⟨e1, e2, e3, _, _⟩ := foldlEpisodeFav_parts profileId _ _
  obtain ⟨s1, s2, s3, _, _⟩ := foldlSeasonFav_parts profileId _ _
  obtain ⟨f1, f2, f3, _, _, _⟩ := saveShowFavorite_parts db profileId showId
  exact ⟨(e1.trans s1).trans f1, (e2.trans s2).trans f2, (e3.trans s3).trans f3⟩

/-- After `favoriteExistingShow` the show and each of its already-persisted
seasons and episodes carry an association for the profile. -/
theorem favoriteExistingShow_ensures (db : DB) (profileId showId : Nat) :
    (∃ w ∈ (favoriteExistingShow db profileId showId).showWS,
      w.profileId = profileId ∧ w.showId = showId)
    ∧ (∀ srow ∈ (favoriteExistingShow db profileId showId).seasons, srow.showId = showId →
        ∃ w ∈ (favoriteExistingShow db profileId showId).seasonWS,
          w.profileId = profileId ∧ w.seasonId = srow.id)
    ∧ (∀ erow ∈ (favoriteExistingShow db profileId showId).episodes, erow.showId = showId →
        ∃ w ∈ (favoriteExistingShow db profileId showId).episodeWS,
          w.profileId = profileId ∧ w.episodeId = erow.id) := by
  refine ⟨?_, ?_, ?_⟩
  · obtain ⟨w, hw, hwp⟩ := saveShowFavorite_mem db profileId showId
    refine ⟨w, ?_, hwp⟩
    unfold favoriteExistingShow
    rw [(foldlEpisodeFav_parts profileId _ _).2.2.2.1, (foldlSeasonFav_parts profileId _ _).2.2.2.1]
    exact hw
  · intro srow hmem hsid
    rw [(favoriteExistingShow_tables db profileId showId).2.1] at hmem
    have hfilter : srow ∈ (saveShowFavorite db profileId showId).seasons.filter
        (fun s => s.showId == showId) := by
      rw [(saveShowFavorite_parts db profileId showId).2.1]
      exact List.mem_filter.mpr ⟨hmem, by simp [hsid]⟩
    obtain ⟨w, hw, hwp⟩ := foldlSeasonFav_ensures profileId _
      (saveShowFavorite db profileId showId) srow hfilter
    refine ⟨w, ?_, hwp⟩
    unfold favoriteExistingShow
    rw [(foldlEpisodeFav_parts profileId _ _).2.2.2.2]
    exact hw
  · intro erow hmem hsid
    rw [(favoriteExistingShow_tables db profileId showId).2.2] at hmem
    unfold favoriteExistingShow
    apply foldlEpisodeFav_ensures
    rw [(foldlSeasonFav_parts profileId _ _).2.2.1, (saveShowFavorite_parts db profileId showId).2.2.1]
    exact List.mem_filter.mpr ⟨hmem, by simp [hsid]⟩

/-- When the show and all its persisted seasons and episodes are already
favorited for the profile, `favoriteExistingShow` is the identity (every
INSERT IGNORE is skipped). -/
theorem favoriteExistingShow_fix (db : DB) (profileId showId : Nat)
    (hshow : ∃ w ∈ db.showWS, w.profileId = profileId ∧ w.showId = showId)
    (hseas : ∀ srow ∈ db.seasons, srow.showId = showId →
      ∃ w ∈ db.seasonWS, w.profileId = profileId ∧ w.seasonId = srow.id)
    (heps : ∀ erow ∈ db.episodes, erow.showId = showId →
      ∃ w ∈ db.episodeWS, w.profileId = profileId ∧ w.episodeId = erow.id) :
    favoriteExistingShow db profileId showId = db := by
  have h1 : saveShowFavorite db profileId showId = db := by
    apply saveShowFavorite_fix
    rw [List.any_eq_true]
    obtain ⟨w, hw, ha, hb⟩ := hshow
    exact ⟨w, hw, by simp [ha, hb]⟩
  have h2 : (db.seasons.filter (fun s => s.showId == showId)).foldl
      (fun d srow => saveSeasonFavorite d profileId srow.id) db = db := by
    apply foldlSeasonFav_fix
    intro srow hsr
    have hm := List.mem_filter.mp hsr
    obtain ⟨w, hw, ha, hb⟩ := hseas srow hm.1 (by simpa using hm.2)
    rw [List.any_eq_true]
    exact ⟨w, hw, by simp [ha, hb]⟩
  simp only [favoriteExistingShow, h1, h2]
  apply foldlEpisodeFav_fix
  intro erow her
  have hm := List.mem_filter.mp her
  obtain ⟨w, hw, ha, hb⟩ := heps erow hm.1 (by simpa using hm.2)
  rw [List.any_eq_true]
  exact ⟨w, hw, by simp [ha, hb]⟩

/-- C6.  Favoriting the same external content id twice — the second
`addShowToFavorites` call made after the first call's hierarchy load
completed — is idempotent on the database: the second call changes nothing,
so in particular no duplicate Season or Episode row and no duplicate
watch-status association is created, and the season and episode counts
equal those of a single ingestion.  The hypotheses state that existing
hierarchy rows reference already-allocated show ids (the AUTO_INCREMENT
well-formedness invariant) and that the first load completes without
provider failures. -/
theorem addShowToFavorites_idempotent (fails : Nat → Bool) (io : Option (List Socket))
    (db : DB) (profileId : Nat) (tmdbShow : TMDBShow)
    (hs : ∀ srow ∈ db.seasons, srow.showId < db.nextShowId)
    (he : ∀ erow ∈ db.episodes, erow.showId < db.nextShowId)
    (hfail : ∀ s ∈ tmdbShow.seasons, fails s.seasonNumber = false) :
    addShowToFavorites fails io (addShowToFavorites fails io db profileId tmdbShow)
      profileId tmdbShow = addShowToFavorites fails io db profileId tmdbShow := by
  rcases hfind : findByTMDBId db tmdbShow.id with _ | existing
  · -- the show is new: the first call persists it and loads the hierarchy
    have hvf : ∀ s ∈ tmdbShow.seasons.filter (fun s => 0 < s.seasonNumber),
        fails s.seasonNumber = false := fun s hsf => hfail s (List.mem_of_mem_filter hsf)
    have hstep1 : addShowToFavorites fails io db profileId tmdbShow =
        persistSeasons profileId (saveShowRow db tmdbShow.id).2
          (saveShowFavorite (saveShowRow db tmdbShow.id).1 profileId
            (saveShowRow db tmdbShow.id).2)
          (tmdbShow.seasons.filter (fun s => 0 < s.seasonNumber)) := by
      simp only [addShowToFavorites, hfind, fetchSeasonsAndEpisodes]
      rw [fetchLoop_no_fail fails profileId _ _ _ hvf]
      rfl
    rw [hstep1]
    have hfind1 : findByTMDBId
        (persistSeasons profileId (saveShowRow db tmdbShow.id).2
          (saveShowFavorite (saveShowRow db tmdbShow.id).1 profileId
            (saveShowRow db tmdbShow.id).2)
          (tmdbShow.seasons.filter (fun s => 0 < s.seasonNumber))) tmdbShow.id =
        some ⟨db.nextShowId, tmdbShow.id⟩ := by
      unfold findByTMDBId at hfind ⊢
      rw [(persistSeasons_show_parts profileId _ _ _).1, (saveShowFavorite_parts _ profileId _).1]
      have hshows : (saveShowRow db tmdbShow.id).1.shows =
          db.shows ++ [⟨db.nextShowId, tmdbShow.id⟩] := rfl
      rw [hshows, List.find?_append, hfind]
      simp
    have hstep2 : addShowToFavorites fails io
        (persistSeasons profileId (saveShowRow db tmdbShow.id).2
          (saveShowFavorite (saveShowRow db tmdbShow.id).1 profileId
            (saveShowRow db tmdbShow.id).2)
          (tmdbShow.seasons.filter (fun s => 0 < s.seasonNumber))) profileId tmdbShow =
        favoriteExistingShow
          (persistSeasons profileId (saveShowRow db tmdbShow.id).2
            (saveShowFavorite (saveShowRow db tmdbShow.id).1 profileId
              (saveShowRow db tmdbShow.id).2)
            (tmdbShow.seasons.filter (fun s => 0 < s.seasonNumber))) profileId
          db.nextShowId := by
      simp only [addShowToFavorites, hfind1]
    rw [hstep2]
    apply favoriteExistingShow_fix
    · rw [(persistSeasons_show_parts profileId _ _ _).2]
      exact saveShowFavorite_mem _ profileId _
    · intro srow hmem hsid
      rcases persistSeasons_seasons_favorited profileId _ _ _ srow hmem with hold | hfav
      · exfalso
        rw [(saveShowFavorite_parts _ profileId _).2.1] at hold
        have hold' : srow ∈ db.seasons := hold
        have := hs srow hold'
        rw [hsid] at this
        exact lt_irrefl _ this
      · exact hfav
    · intro erow hmem heid
      rcases persistSeasons_episodes_favorited profileId _ _ _ erow hmem with hold | hfav
      · exfalso
        rw [(saveShowFavorite_parts _ profileId _).2.2.1] at hold
        have hold' : erow ∈ db.episodes := hold
        have := he erow hold'
        rw [heid] at this
        exact lt_irrefl _ this
      · exact hfav
  · -- the show already exists: both calls attach the favorite synchronously
    have htab := favoriteExistingShow_tables db profileId existing.id
    have hstep1 : addShowToFavorites fails io db profileId tmdbShow =
        favoriteExistingShow db profileId existing.id := by
      simp only [addShowToFavorites, hfind]
    rw [hstep1]
    have hfind1 : findByTMDBId (favoriteExistingShow db profileId existing.id) tmdbShow.id =
        some existing := by
      unfold findByTMDBId at hfind ⊢
      rw [htab.1]
      exact hfind
    have hens := favoriteExistingShow_ensures db profileId existing.id
    have hstep2 : addShowToFavorites fails io (favoriteExistingShow db profileId existing.id)
        profileId tmdbShow =
        favoriteExistingShow (favoriteExistingShow db profileId existing.id) profileId
          existing.id := by
      simp only [addShowToFavorites, hfind1]
    rw [hstep2]
    exact favoriteExistingShow_fix _ profileId existing.id hens.1 hens.2.1 hens.2.2

/-- Witness for C6: favoriting TMDB show 99 twice against an empty database
(the second call after the first load completed) leaves the database of the
first call unchanged. -/
theorem addShowToFavorites_idempotent_witness :
    addShowToFavorites noFails none (addShowToFavorites noFails none {} 1 loaderPayload)
      1 loaderPayload = addShowToFavorites noFails none {} 1 loaderPayload :=
  addShowToFavorites_idempotent noFails none {} 1 loaderPayload
    (by decide) (by decide) (by decide)
